import Mathlib

/-!
Verification development for the media-tracker smart bulk-import subsystem.

The definitions below are a shallow embedding of the Python source:
`src/utils/import_service.py` (title parsing, catalog search with caching,
confidence scoring, strict fuzzy filtering, duplicate checking, the import
driver) and `src/database/db_manager.py` (the batch insert with an explicit
transaction).  Strings are modelled as Lean `String` / `List Char`; Python
floats used for confidence scores are modelled as exact rationals `ℚ`
(every score produced by the code is a short combination of decimal
literals, maxima and one division, so ℚ is a faithful model of the values
compared); Python `None` is modelled with `Option`; Python truthiness of
strings, ints and `None` is modelled explicitly at each use site.
Unicode-sensitive predicates (`\w`, `str.isalpha`, `str.lower`) are
modelled for the character classes that actually occur in this code base:
ASCII, CJK ideographs, kana, and the punctuation the code manipulates.
Remote API clients, the offline matcher and the spreadsheet readers are
oracles passed as function-valued parameters; each remote call performed
is recorded in an explicit call log.
-/

/-! ## Character classes (Python `\s`, `\d`, `\w`, `str.isalpha`, `str.lower`) -/

/-- Whitespace, as matched by Python `\s` / `str.split()` / `str.strip()`
for the characters occurring in this code base (ASCII whitespace plus the
ideographic space). -/
def isSpaceCh (c : Char) : Bool :=
  decide (c = ' ') || decide (c = '\t') || decide (c = '\n') || decide (c = '\r') ||
  decide (c = '\x0b') || decide (c = '\x0c') || decide (c = '　')

/-- ASCII decimal digit, Python regex `\d` for the inputs at hand. -/
def isDigitCh (c : Char) : Bool :=
  decide ('0' ≤ c) && decide (c ≤ '9')

/-- ASCII latin letter. -/
def isAsciiAlpha (c : Char) : Bool :=
  (decide ('a' ≤ c) && decide (c ≤ 'z')) || (decide ('A' ≤ c) && decide (c ≤ 'Z'))

/-- Hiragana or Katakana, the ranges used by `_contains_japanese`. -/
def isKanaChar (c : Char) : Bool :=
  (decide (0x3040 ≤ c.toNat) && decide (c.toNat ≤ 0x309F)) ||
  (decide (0x30A0 ≤ c.toNat) && decide (c.toNat ≤ 0x30FF))

/-- CJK codepoint ranges used by `_contains_cjk` (unified ideographs,
extensions A and B, plus kana). -/
def isCJKChar (c : Char) : Bool :=
  (decide (0x4E00 ≤ c.toNat) && decide (c.toNat ≤ 0x9FFF)) ||
  (decide (0x3400 ≤ c.toNat) && decide (c.toNat ≤ 0x4DBF)) ||
  (decide (0x20000 ≤ c.toNat) && decide (c.toNat ≤ 0x2A6DF)) ||
  isKanaChar c

/-- Python `str.isalpha` restricted to the scripts this code base sees:
ASCII letters, CJK ideographs and kana. -/
def pyIsAlpha (c : Char) : Bool :=
  isAsciiAlpha c || isCJKChar c

/-- Python regex `\w` (word character) for the scripts this code base sees:
ASCII alphanumerics, underscore, CJK ideographs and kana. -/
def pyIsWordChar (c : Char) : Bool :=
  isAsciiAlpha c || isDigitCh c || decide (c = '_') || isCJKChar c

/-- ASCII case folding; Python `str.lower` agrees with this on the ASCII,
CJK and punctuation characters this code manipulates. -/
def pyLowerChar (c : Char) : Char :=
  if decide ('A' ≤ c) && decide (c ≤ 'Z') then Char.ofNat (c.toNat + 32) else c

/-! ## String helpers (Python `strip`, `split`, `lower`, substring tests) -/

/-- Python `str.strip()` on a character list. -/
def pyStripL (l : List Char) : List Char :=
  ((l.dropWhile isSpaceCh).reverse.dropWhile isSpaceCh).reverse

/-- Python `str.strip()`. -/
def pyStrip (s : String) : String :=
  String.mk (pyStripL s.data)

/-- Python `str.lower()`. -/
def pyLower (s : String) : String :=
  String.mk (s.data.map pyLowerChar)

/-- Whitespace-splitting worker for Python `str.split()` (no argument):
splits on whitespace runs and drops empty pieces.  Fuel-driven so the
definition is structural; `fuel = l.length` always suffices because every
step consumes at least one character. -/
def pySplitL : Nat → List Char → List (List Char)
  | 0, _ => []
  | fuel + 1, l =>
    match l.dropWhile isSpaceCh with
    | [] => []
    | c :: cs =>
      let w := (c :: cs).takeWhile (fun d => !(isSpaceCh d))
      w :: pySplitL fuel ((c :: cs).drop w.length)

/-- Python `str.split()` (whitespace split, empties dropped). -/
def pySplit (s : String) : List String :=
  (pySplitL s.data.length s.data).map String.mk

/-- Python `' '.join(s.split())`: collapse whitespace runs to single spaces
and trim. -/
def pyCollapseWS (s : String) : String :=
  String.intercalate " " (pySplit s)

/-- Does `l` start with `pre` (character-exact)? -/
def startsWithCh : List Char → List Char → Bool
  | [], _ => true
  | _ :: _, [] => false
  | a :: as, b :: bs => decide (a = b) && startsWithCh as bs

/-- Python `needle in hay` substring test on character lists. -/
def containsSub (needle : List Char) : List Char → Bool
  | [] => needle.isEmpty
  | c :: cs => startsWithCh needle (c :: cs) || containsSub needle cs

/-- Does `l` end with `sfx`? (Python `str.endswith`.) -/
def endsWithCh (sfx l : List Char) : Bool :=
  startsWithCh sfx.reverse l.reverse

/-- Case-insensitive prefix test (used for `re.IGNORECASE` literals). -/
def startsWithCI (pre l : List Char) : Bool :=
  startsWithCh (pre.map pyLowerChar) (l.map pyLowerChar)

/-- Python truthiness of an optional integer (`None` and `0` are falsy). -/
def pyTruthyNat : Option Nat → Bool
  | some n => decide (n ≠ 0)
  | none => false

/-- Python `f"{x}"` for an optional string (`None` prints as `"None"`). -/
def fmtOptStr : Option String → String
  | some s => s
  | none => "None"

/-- Python `f"{x}"` for an optional integer (`None` prints as `"None"`). -/
def fmtOptNat : Option Nat → String
  | some n => toString n
  | none => "None"

/-- Python `s.isdigit()` for ASCII strings: non-empty and all digits. -/
def pyIsDigitStr (s : String) : Bool :=
  !(s.data.isEmpty) && s.data.all isDigitCh

/-- Numeric value of an all-digit character list. -/
def digitsVal (l : List Char) : Nat :=
  l.foldl (fun acc c => acc * 10 + (c.toNat - '0'.toNat)) 0

/-- Python `int(s)` restricted to optionally signed decimal literals with
surrounding whitespace; anything else raises `ValueError`, modelled as
`none`. -/
def pyIntOfString (s : String) : Option Int :=
  let l := pyStripL s.data
  match l with
  | '-' :: rest =>
    if !(rest.isEmpty) && rest.all isDigitCh then some (-(digitsVal rest : Int)) else none
  | '+' :: rest =>
    if !(rest.isEmpty) && rest.all isDigitCh then some (digitsVal rest : Int) else none
  | _ =>
    if !(l.isEmpty) && l.all isDigitCh then some (digitsVal l : Int) else none

/-! ## Year extraction (`BaseImportService._extract_year`)

Python: `re.search(r'\((\d{4})\)|(?:^|\s)(\d{4})(?:\s|$)', text)`, then the
captured group is accepted only if it lies in [1950, 2030].  The regex
search is modelled as a left-to-right scan trying, at each position, first
the parenthesised alternative and then the whitespace-bounded standalone
alternative. -/

/-- Four digits at the head of `l`, followed by whitespace or end of input
(the `(\d{4})(?:\s|$)` tail of the standalone alternative). -/
def fourDigitsBounded (l : List Char) : Option Nat :=
  match l with
  | d1 :: d2 :: d3 :: d4 :: rest =>
    if isDigitCh d1 && isDigitCh d2 && isDigitCh d3 && isDigitCh d4 then
      match rest with
      | [] => some (digitsVal [d1, d2, d3, d4])
      | c :: _ => if isSpaceCh c then some (digitsVal [d1, d2, d3, d4]) else none
    else none
  | _ => none

/-- The `\((\d{4})\)` alternative at the current position. -/
def parenYearAt (l : List Char) : Option Nat :=
  match l with
  | '(' :: d1 :: d2 :: d3 :: d4 :: ')' :: _ =>
    if isDigitCh d1 && isDigitCh d2 && isDigitCh d3 && isDigitCh d4 then
      some (digitsVal [d1, d2, d3, d4])
    else none
  | _ => none

/-- The `(?:^|\s)(\d{4})(?:\s|$)` alternative at the current position;
`atStart` tells whether `^` applies here. -/
def standaloneYearAt (atStart : Bool) (l : List Char) : Option Nat :=
  match (if atStart then fourDigitsBounded l else none) with
  | some y => some y
  | none =>
    match l with
    | c :: rest => if isSpaceCh c then fourDigitsBounded rest else none
    | [] => none

/-- Leftmost match of the year regex (first alternative preferred at each
position, positions scanned left to right, exactly as `re.search`). -/
def searchYearNum (atStart : Bool) : List Char → Option Nat
  | [] =>
    match parenYearAt [] with
    | some y => some y
    | none => standaloneYearAt atStart []
  | c :: cs =>
    match parenYearAt (c :: cs) with
    | some y => some y
    | none =>
      match standaloneYearAt atStart (c :: cs) with
      | some y => some y
      | none => searchYearNum false cs

/-- `BaseImportService._extract_year`: the first regex match, accepted only
if it lies in [1950, 2030] (no further matches are tried). -/
def extract_year (text : String) : Option Nat :=
  match searchYearNum true text.data with
  | some y => if 1950 ≤ y && y ≤ 2030 then some y else none
  | none => none

/-! ## Removal of parenthesised years (`re.sub(r'\s*\(\d{4}\)\s*', ' ', entry)`)

Modelled as a left-to-right scan; at each position the pattern matches iff
the maximal whitespace run from here is followed by `(dddd)` (a shorter run
would have to put `(` on a whitespace character), after which the trailing
`\s*` greedily eats following whitespace; each match is replaced by a
single space and scanning resumes after it. -/

/-- Attempt the pattern `\s*\(\d{4}\)\s*` at the head of `l`; on success,
return the remainder after the whole match. -/
def matchPY (l : List Char) : Option (List Char) :=
  match l.dropWhile isSpaceCh with
  | '(' :: d1 :: d2 :: d3 :: d4 :: ')' :: rest =>
    if isDigitCh d1 && isDigitCh d2 && isDigitCh d3 && isDigitCh d4 then
      some (rest.dropWhile isSpaceCh)
    else none
  | _ => none

/-- Fuel-driven substitution worker; `fuel = l.length` always suffices
because a match consumes at least six characters and a non-match consumes
one. -/
def subPYF : Nat → List Char → List Char
  | 0, l => l
  | fuel + 1, l =>
    match matchPY l with
    | some rest => ' ' :: subPYF fuel rest
    | none =>
      match l with
      | [] => []
      | c :: cs => c :: subPYF fuel cs

/-- `re.sub(r'\s*\(\d{4}\)\s*', ' ', ·)` on a character list. -/
def subPY (l : List Char) : List Char :=
  subPYF l.length l

/-- Is the optional character a digit? -/
def optDigit : Option Char → Bool
  | some c => isDigitCh c
  | none => false

/-- Is there a parenthesised four-digit group (`(dddd)`) at the head of
`l`?  Stated through indexing so it reduces on partially known lists. -/
def startsPY (l : List Char) : Bool :=
  decide (l[0]? = some '(') && optDigit l[1]? && optDigit l[2]? &&
  optDigit l[3]? && optDigit l[4]? && decide (l[5]? = some ')')

/-- Does `l` contain a parenthesised four-digit group anywhere? -/
def hasPY : List Char → Bool
  | [] => false
  | c :: cs => startsPY (c :: cs) || hasPY cs

/-! ## Parsed title sets

Python represents a parsed entry as a plain dict; the anime parser fills
the keys `english`, `romaji`, `japanese`, `chinese`, the movie/TV parsers
fill `title` and `year`.  A missing key (`dict.get` returning `None`) and
an empty string are both falsy and are treated identically by every
consumer, so the dict is modelled as a record of six strings defaulting to
`""`. -/

structure TitleSet where
  english : String := ""
  romaji : String := ""
  japanese : String := ""
  chinese : String := ""
  title : String := ""
  year : String := ""
deriving DecidableEq, Repr

/-- Python `any(titles.values())`: is any variant non-empty? -/
def titlesAnyTruthy (t : TitleSet) : Bool :=
  decide (t.english ≠ "") || decide (t.romaji ≠ "") || decide (t.japanese ≠ "") ||
  decide (t.chinese ≠ "") || decide (t.title ≠ "") || decide (t.year ≠ "")

/-! ## Movie / TV title parsing
(`MovieImportService.parse_titles_from_entry`, `TVImportService.parse_titles_from_entry`) -/

/-- `MovieImportService.parse_titles_from_entry`: strip the entry, extract
a year with `_extract_year`; if one is found, record it and delete every
`\s*\(\d{4}\)\s*` occurrence (note: only parenthesised years are deleted);
the stripped remainder is the title. -/
def movie_parse_titles_from_entry (entry : String) : TitleSet :=
  let e1 := pyStrip entry
  match extract_year e1 with
  | some y =>
    let e2 := pyStrip (String.mk (subPY e1.data))
    { title := e2, year := toString y }
  | none => { title := e1 }

/-- `TVImportService.parse_titles_from_entry` (same body as the movie
parser in the source). -/
def tv_parse_titles_from_entry (entry : String) : TitleSet :=
  let e1 := pyStrip entry
  match extract_year e1 with
  | some y =>
    let e2 := pyStrip (String.mk (subPY e1.data))
    { title := e2, year := toString y }
  | none => { title := e1 }

/-! ## Facts about the parenthesised-year substitution -/

theorem length_dropWhile_le' (p : Char → Bool) (l : List Char) :
    (l.dropWhile p).length ≤ l.length := by
  induction l with
  | nil => simp
  | cons c cs ih =>
    rw [List.dropWhile_cons]
    split
    · exact Nat.le_succ_of_le ih
    · simp

theorem matchPY_some_length {l r : List Char} (h : matchPY l = some r) :
    r.length < l.length := by
  unfold matchPY at h
  split at h
  · rename_i d1 d2 d3 d4 rest heq
    split at h
    · have h1 : (l.dropWhile isSpaceCh).length ≤ l.length := length_dropWhile_le' _ l
      rw [heq] at h1
      simp only [List.length_cons] at h1
      have h2 : (rest.dropWhile isSpaceCh).length ≤ rest.length := length_dropWhile_le' _ rest
      have h3 : r = rest.dropWhile isSpaceCh := by
        injection h with h'
        exact h'.symm
      rw [h3]
      omega
    · cases h
  · cases h

theorem subPYF_succ_some {n : Nat} {l rest : List Char} (h : matchPY l = some rest) :
    subPYF (n + 1) l = ' ' :: subPYF n rest := by
  simp only [subPYF, h]

theorem subPYF_succ_none_cons {n : Nat} {c : Char} {cs : List Char}
    (h : matchPY (c :: cs) = none) :
    subPYF (n + 1) (c :: cs) = c :: subPYF n cs := by
  simp only [subPYF, h]

theorem subPYF_succ_nil {n : Nat} : subPYF (n + 1) [] = [] := by
  simp only [subPYF, show matchPY [] = none from rfl]

theorem startsPY_matchPY {l : List Char} (h : startsPY l = true) :
    ∃ r, matchPY l = some r := by
  rcases l with _ | ⟨c0, _ | ⟨c1, _ | ⟨c2, _ | ⟨c3, _ | ⟨c4, _ | ⟨c5, rest⟩⟩⟩⟩⟩⟩ <;>
    simp [startsPY, optDigit] at h
  obtain ⟨⟨⟨⟨⟨h0, h1⟩, h2⟩, h3⟩, h4⟩, h5⟩ := h
  subst h0
  subst h5
  refine ⟨rest.dropWhile isSpaceCh, ?_⟩
  unfold matchPY
  rw [List.dropWhile_cons]
  simp [isSpaceCh, h1, h2, h3, h4]

theorem subPYF_agree : ∀ (fuel : Nat) (l : List Char), l.length ≤ fuel →
    ∃ k, (subPYF fuel l).take k = l.take k ∧
      ((subPYF fuel l).length ≤ k ∨ (subPYF fuel l)[k]? = some ' ') := by
  intro fuel
  induction fuel with
  | zero =>
    intro l hl
    have hnil : l = [] := List.length_eq_zero.mp (Nat.le_zero.mp hl)
    subst hnil
    exact ⟨0, by simp [subPYF], Or.inl (by simp [subPYF])⟩
  | succ n ih =>
    intro l hl
    cases hm : matchPY l with
    | some rest =>
      rw [subPYF_succ_some hm]
      exact ⟨0, by simp, Or.inr (by simp)⟩
    | none =>
      cases l with
      | nil => exact ⟨0, by simp, Or.inl (by rw [subPYF_succ_nil]; simp)⟩
      | cons c cs =>
        rw [subPYF_succ_none_cons hm]
        have hcs : cs.length ≤ n := by
          simp only [List.length_cons] at hl
          omega
        obtain ⟨k, hk1, hk2⟩ := ih cs hcs
        refine ⟨k + 1, ?_, ?_⟩
        · simp only [List.take_succ_cons, hk1]
        · rcases hk2 with h | h
          · exact Or.inl (by simp only [List.length_cons]; omega)
          · exact Or.inr (by simpa using h)

theorem hasPY_subPYF : ∀ (fuel : Nat) (l : List Char), l.length ≤ fuel →
    hasPY (subPYF fuel l) = false := by
  intro fuel
  induction fuel with
  | zero =>
    intro l hl
    have hnil : l = [] := List.length_eq_zero.mp (Nat.le_zero.mp hl)
    subst hnil
    simp [subPYF, hasPY]
  | succ n ih =>
    intro l hl
    cases hm : matchPY l with
    | some rest =>
      rw [subPYF_succ_some hm, hasPY]
      have hr : rest.length ≤ n := by
        have := matchPY_some_length hm
        omega
      rw [ih rest hr]
      simp [startsPY]
    | none =>
      cases l with
      | nil => rw [subPYF_succ_nil]; simp [hasPY]
      | cons c cs =>
        rw [subPYF_succ_none_cons hm]
        have hcs : cs.length ≤ n := by
          simp only [List.length_cons] at hl
          omega
        rw [hasPY, ih cs hcs, Bool.or_false]
        by_contra habs
        rw [Bool.not_eq_false] at habs
        simp only [startsPY, Bool.and_eq_true, decide_eq_true_eq,
          List.getElem?_cons_zero, List.getElem?_cons_succ] at habs
        obtain ⟨⟨⟨⟨⟨h0, h1⟩, h2⟩, h3⟩, h4⟩, h5⟩ := habs
        injection h0 with h0
        subst h0
        obtain ⟨k, hk1, hk2⟩ := subPYF_agree n cs hcs
        by_cases hk5 : 5 ≤ k
        · have hag : ∀ i, i < k → (subPYF n cs)[i]? = cs[i]? := by
            intro i hik
            calc (subPYF n cs)[i]? = ((subPYF n cs).take k)[i]? :=
                  (List.getElem?_take_of_lt hik).symm
            _ = (cs.take k)[i]? := by rw [hk1]
            _ = cs[i]? := List.getElem?_take_of_lt hik
          have hc0 : optDigit cs[0]? = true := by rw [← hag 0 (by omega)]; exact h1
          have hc1 : optDigit cs[1]? = true := by rw [← hag 1 (by omega)]; exact h2
          have hc2 : optDigit cs[2]? = true := by rw [← hag 2 (by omega)]; exact h3
          have hc3 : optDigit cs[3]? = true := by rw [← hag 3 (by omega)]; exact h4
          have hc4 : cs[4]? = some ')' := by rw [← hag 4 (by omega)]; exact h5
          have hspy : startsPY ('(' :: cs) = true := by
            simp only [startsPY, List.getElem?_cons_zero, List.getElem?_cons_succ,
              hc0, hc1, hc2, hc3, hc4]
            simp
          obtain ⟨r, hr⟩ := startsPY_matchPY hspy
          rw [hm] at hr
          cases hr
        · have hlen : 4 < (subPYF n cs).length := by
            by_contra hc
            push_neg at hc
            rw [List.getElem?_eq_none hc] at h5
            cases h5
          rcases hk2 with h | h
          · omega
          · push_neg at hk5
            interval_cases k <;> simp_all [optDigit, isDigitCh]

theorem hasPY_subPY (l : List Char) : hasPY (subPY l) = false :=
  hasPY_subPYF l.length l le_rfl

theorem startsPY_append {t v : List Char} (h : startsPY t = true) :
    startsPY (t ++ v) = true := by
  simp only [startsPY, Bool.and_eq_true, decide_eq_true_eq] at h ⊢
  have hlen : 5 < t.length := by
    by_contra hc
    push_neg at hc
    rw [List.getElem?_eq_none hc] at h
    exact absurd h.2 (by simp)
  rw [List.getElem?_append_left (by omega), List.getElem?_append_left (by omega),
    List.getElem?_append_left (by omega), List.getElem?_append_left (by omega),
    List.getElem?_append_left (by omega), List.getElem?_append_left (by omega)]
  exact h

theorem hasPY_append_right {t : List Char} (v : List Char) (h : hasPY t = true) :
    hasPY (t ++ v) = true := by
  induction t with
  | nil => simp [hasPY] at h
  | cons c cs ih =>
    rw [hasPY] at h
    rw [List.cons_append, hasPY]
    rcases Bool.or_eq_true_iff.mp h with h' | h'
    · rw [← List.cons_append, startsPY_append h']
      simp
    · rw [ih h']
      simp

theorem hasPY_append_left (u : List Char) {t : List Char} (h : hasPY t = true) :
    hasPY (u ++ t) = true := by
  induction u with
  | nil => simpa using h
  | cons c cs ih =>
    rw [List.cons_append, hasPY, ih]
    simp

theorem hasPY_of_decomp {l m : List Char} (u v : List Char) (hl : l = u ++ m ++ v)
    (h : hasPY l = false) : hasPY m = false := by
  by_contra habs
  rw [Bool.not_eq_false] at habs
  have htrue : hasPY l = true := by
    rw [hl, List.append_assoc]
    exact hasPY_append_left u (hasPY_append_right v habs)
  rw [htrue] at h
  cases h

theorem pyStripL_decomp (l : List Char) : ∃ u v, l = u ++ pyStripL l ++ v := by
  refine ⟨l.takeWhile isSpaceCh,
    ((l.dropWhile isSpaceCh).reverse.takeWhile isSpaceCh).reverse, ?_⟩
  have h1 := List.takeWhile_append_dropWhile (p := isSpaceCh)
    (l := (l.dropWhile isSpaceCh).reverse)
  have h2 : l.dropWhile isSpaceCh =
      pyStripL l ++ ((l.dropWhile isSpaceCh).reverse.takeWhile isSpaceCh).reverse := by
    calc l.dropWhile isSpaceCh = (l.dropWhile isSpaceCh).reverse.reverse :=
        (List.reverse_reverse _).symm
    _ = ((l.dropWhile isSpaceCh).reverse.takeWhile isSpaceCh ++
          (l.dropWhile isSpaceCh).reverse.dropWhile isSpaceCh).reverse := by rw [h1]
    _ = _ := by
        rw [List.reverse_append]
        rfl
  rw [List.append_assoc]
  calc l = l.takeWhile isSpaceCh ++ l.dropWhile isSpaceCh :=
      (List.takeWhile_append_dropWhile (p := isSpaceCh) (l := l)).symm
  _ = _ := by
      conv_lhs => rw [h2]

theorem hasPY_pyStripL {l : List Char} (h : hasPY l = false) :
    hasPY (pyStripL l) = false := by
  obtain ⟨u, v, hl⟩ := pyStripL_decomp l
  exact hasPY_of_decomp u v hl h

/-! ## Claim C3: Movie/TV year extraction -/

theorem tv_parse_eq_movie_parse (e : String) :
    tv_parse_titles_from_entry e = movie_parse_titles_from_entry e := rfl

theorem movie_parse_year_sound (e : String)
    (h : (movie_parse_titles_from_entry e).year ≠ "") :
    ∃ y, extract_year (pyStrip e) = some y ∧ 1950 ≤ y ∧ y ≤ 2030 ∧
      (movie_parse_titles_from_entry e).year = toString y ∧
      hasPY (movie_parse_titles_from_entry e).title.data = false := by
  cases hy : extract_year (pyStrip e) with
  | none =>
    exfalso
    apply h
    simp only [movie_parse_titles_from_entry, hy]
  | some y =>
    have hrange : 1950 ≤ y ∧ y ≤ 2030 := by
      unfold extract_year at hy
      cases hs : searchYearNum true (pyStrip e).data with
      | none => rw [hs] at hy; cases hy
      | some y0 =>
        rw [hs] at hy
        simp only at hy
        split at hy
        · rename_i hcond
          injection hy with hy'
          subst hy'
          simpa using hcond
        · cases hy
    refine ⟨y, rfl, hrange.1, hrange.2, ?_, ?_⟩
    · simp only [movie_parse_titles_from_entry, hy]
    · simp only [movie_parse_titles_from_entry, hy]
      exact hasPY_pyStripL (hasPY_subPY _)

/-- C3 (corrected): for every Movie/TV raw entry, the parser extracts a
4-digit year (in parentheses or standalone, whitespace-bounded) and accepts
it only if it lies in [1950, 2030]; however only *parenthesised* year
occurrences are removed from the string — a standalone year token stays in
the returned title.  Whenever a year is detected, the returned title
contains no parenthesised 4-digit group. -/
theorem movie_tv_year_extraction (e : String) :
    ((movie_parse_titles_from_entry e).year ≠ "" →
      ∃ y, extract_year (pyStrip e) = some y ∧ 1950 ≤ y ∧ y ≤ 2030 ∧
        (movie_parse_titles_from_entry e).year = toString y ∧
        hasPY (movie_parse_titles_from_entry e).title.data = false) ∧
    ((tv_parse_titles_from_entry e).year ≠ "" →
      ∃ y, extract_year (pyStrip e) = some y ∧ 1950 ≤ y ∧ y ≤ 2030 ∧
        (tv_parse_titles_from_entry e).year = toString y ∧
        hasPY (tv_parse_titles_from_entry e).title.data = false) := by
  constructor
  · exact movie_parse_year_sound e
  · rw [tv_parse_eq_movie_parse]
    exact movie_parse_year_sound e

/-- C3 witness: on `"The Matrix (1999)"` a year is detected, is in range,
and the parenthesised token is gone from the title. -/
theorem movie_tv_year_extraction_witness :
    ∃ y, extract_year (pyStrip "The Matrix (1999)") = some y ∧ 1950 ≤ y ∧ y ≤ 2030 ∧
      (movie_parse_titles_from_entry "The Matrix (1999)").year = toString y ∧
      hasPY (movie_parse_titles_from_entry "The Matrix (1999)").title.data = false :=
  (movie_tv_year_extraction "The Matrix (1999)").1 (by decide)

/-- C3 counterexample: on `"The Matrix 1999"` a valid year is detected as a
standalone token, yet the returned title still contains that year token, so
the claim "the returned title no longer contains that year token" is false
as stated. -/
theorem movie_year_not_removed_counterexample :
    (movie_parse_titles_from_entry "The Matrix 1999").year = "1999" ∧
    containsSub "1999".data
      (movie_parse_titles_from_entry "The Matrix 1999").title.data = true := by
  constructor
  · decide
  · decide

/-! ## Anime title parsing (`AnimeImportService`)

The keyword lists are transcribed verbatim from the class attributes
`TECHNICAL_KEYWORDS` and `AMBIGUOUS_KEYWORDS`. -/

def TECHNICAL_KEYWORDS : List String :=
  ["BDMV", "DVDISO", "DVDMV", "BluRay", "Blu-ray", "BD-BOX", "BDISO",
   "WebDL", "WEB-DL", "WEBRip", "HDRip", "BRRip", "DVDRip",
   "1080p", "1080i", "720p", "480p", "480i", "2160p", "4K", "8K",
   "AVC", "HEVC", "H264", "H.264", "H265", "H.265", "x264", "x265",
   "MPEG", "MPEG-2", "VP9", "AV1",
   "AAC", "AC3", "E-AC3", "DTS", "FLAC", "MP3", "LPCM",
   "MKV", "MP4", "AVI", "ISO",
   "Vol.", "Vol", "Volume", "DISC", "Disc", "Disk",
   "BD×", "DVD×", "BDx", "DVDx",
   "R1", "R2", "R2J", "R1US", "USA", "JPN", "JP", "NTSC", "PAL",
   "Fin", "Remux", "Encode", "Rip", "Source",
   "Nyaa", "U2", "ADC", "Share", "Self-Rip", "Self-Purchase",
   "VCB-Studio", "VCB", "TSDM", "Kamigami", "ANK-RAWS",
   "philosophy-raws", "kakeruSMC", "Lupin the Nerd",
   "taskforce", "Ioroid", "NAN0", "CTM", "Bikko",
   "自抓", "自购", "感谢", "thanks", "Thanks", "台版",
   "自扫", "合集", "修正", "整合"]

def AMBIGUOUS_KEYWORDS : List String :=
  ["OVA", "OAD", "Special", "Movie", "MOVIE", "TV"]

/-- `AnimeImportService._is_latin_text`: more than 60% of the characters
are ASCII letters or ASCII spaces (`c.isascii() and (c.isalpha() or
c.isspace())`).  The Python float comparison `latin / len(text) > 0.6` is
modelled by the exact cross-multiplied integer comparison
`10 * latin > 6 * len`; for the string lengths at play the float division
never rounds across the threshold, so the two agree. -/
def is_latin_text (text : String) : Bool :=
  if text = "" then false
  else
    let latin := (text.data.filter (fun c =>
      decide (c.toNat < 128) && (isAsciiAlpha c || isSpaceCh c))).length
    decide (6 * text.data.length < 10 * latin)

/-- `AnimeImportService._contains_japanese`. -/
def contains_japanese (text : String) : Bool :=
  text.data.any isKanaChar

/-- `AnimeImportService._contains_cjk`. -/
def contains_cjk (text : String) : Bool :=
  text.data.any isCJKChar

/-- Regex `^set\s+\d+$` and friends (from `set_patterns` in
`_looks_like_technical`): a literal word, then at least one whitespace
character (`\s+`) or optionally a dot and any whitespace (`\.?\s*`), then
at least one digit, then end of string. -/
def wordWsDigits (word : List Char) (l : List Char) : Bool :=
  match l.dropPrefix? word with
  | none => false
  | some rest =>
    let rest2 := rest.dropWhile isSpaceCh
    decide (rest2.length < rest.length) && !(rest2.isEmpty) && rest2.all isDigitCh

/-- Regex `^vol\.?\s*\d+$`: "vol", optional dot, any whitespace, digits. -/
def volNumFull (l : List Char) : Bool :=
  match l.dropPrefix? "vol".data with
  | none => false
  | some rest =>
    let rest1 := match rest with | '.' :: r => r | _ => rest
    let rest2 := rest1.dropWhile isSpaceCh
    !(rest2.isEmpty) && rest2.all isDigitCh

/-- Regex search `vol\.?\s*\d+` (unanchored): does the pattern match at the
head of `l`? -/
def volNumAt (l : List Char) : Bool :=
  match l.dropPrefix? "vol".data with
  | none => false
  | some rest =>
    let rest1 := match rest with | '.' :: r => r | _ => rest
    optDigit (rest1.dropWhile isSpaceCh)[0]?

/-- Regex search `disc?\s*[×x]\s*\d+` at the head of `l`:
"dis", optional "c", whitespace, `×` or `x`, whitespace, a digit. -/
def discCountAt (l : List Char) : Bool :=
  match l.dropPrefix? "dis".data with
  | none => false
  | some rest =>
    let rest1 := match rest with | 'c' :: r => r | _ => rest
    match (rest1.dropWhile isSpaceCh) with
    | c :: r2 =>
      if decide (c = '×') || decide (c = 'x') then
        optDigit (r2.dropWhile isSpaceCh)[0]?
      else false
    | [] => false

/-- Regex search `bd[×x]\d+` at the head of `l`. -/
def bdCountAt (l : List Char) : Bool :=
  match l.dropPrefix? "bd".data with
  | none => false
  | some rest =>
    match rest with
    | c :: r =>
      if decide (c = '×') || decide (c = 'x') then optDigit r[0]? else false
    | [] => false

/-- Does the unanchored pattern recognised by `p` match anywhere in `l`? -/
def anyTail (p : List Char → Bool) : List Char → Bool
  | [] => p []
  | c :: cs => p (c :: cs) || anyTail p cs

/-- Regex `^[\d\-\s×x\.]+$` from the ambiguous-keyword check. -/
def digitsDashesOnly (l : List Char) : Bool :=
  !(l.isEmpty) && l.all (fun c =>
    isDigitCh c || decide (c = '-') || isSpaceCh c || decide (c = '×') ||
    decide (c = 'x') || decide (c = '.'))

/-- `AnimeImportService._looks_like_technical`, transcribed clause by
clause.  `text_lower` is `text.lower().strip()`; `re.match` anchors at the
start, `re.search` scans; the "substantial content" exception skips a
technical keyword only when it sits at the end of the text. -/
def looks_like_technical (text : String) : Bool :=
  if decide (text = "") || decide (text.data.length ≤ 1) then true
  else
    let text_lower := pyStrip (pyLower text)
    let tl := text_lower.data
    -- uploader patterns with '@'
    if containsSub "@".data text.data then true
    -- "Set X" / "Vol X" / "Volume X" / "Part X" (re.match, i.e. anchored)
    else if wordWsDigits "set".data tl || volNumFull tl ||
        wordWsDigits "volume".data tl || wordWsDigits "part".data tl then true
    else
      let has_substantial_content :=
        decide (10 < text.data.length) && (text.data.take 10).any pyIsAlpha
      -- unambiguous technical keywords, with the trailing-keyword exception
      if TECHNICAL_KEYWORDS.any (fun kw =>
          let kl := (pyLower kw).data
          containsSub kl tl &&
          !(has_substantial_content &&
            (endsWithCh kl tl || endsWithCh (kl ++ " ".data) tl))) then true
      -- ambiguous keywords
      else if AMBIGUOUS_KEYWORDS.any (fun kw =>
          let kl := pyLower kw
          decide (text_lower = kl) ||
          (decide (text.data.length < 20) &&
            (match pySplit text_lower with
             | w :: ws =>
               decide (w = kl) &&
               (let rest := String.intercalate " " ws
                decide (rest = "") || digitsDashesOnly rest.data)
             | [] => false))) then true
      -- technical patterns (re.search on text_lower)
      else if endsWithCh "p".data tl && optDigit tl.reverse[1]? then true
      else if endsWithCh "i".data tl && optDigit tl.reverse[1]? then true
      else if anyTail volNumAt tl then true
      else if anyTail discCountAt tl then true
      else if !(tl.isEmpty) && tl.all isDigitCh &&
          (decide (tl.length = 3) || decide (tl.length = 4)) then true
      else if anyTail bdCountAt tl then true
      else if endsWithCh "rev".data tl then true
      else if decide (3 ≤ tl.length) && decide (tl[0]? = some '[') &&
          decide (tl.reverse[0]? = some ']') &&
          ((tl.drop 1).take (tl.length - 2)).all (fun c => decide (c ≠ '\n')) then true
      else false

/-- Trailing junk suffixes stripped by `_clean_extracted_title` (verbatim,
including the two Kangxi-radical variants). -/
def junkSuffixes : List String :=
  ["自抓", "自购", "感谢", "台版", "⾃抓", "⾃购", "合集", "修正", "整合"]

/-- `re.sub(r'\s*@[\w\-]+$', '', title)`: drop a trailing `@uploader` tag
together with the whitespace before it. -/
def stripTrailingAt (s : String) : String :=
  let r := s.data.reverse
  let w := r.takeWhile (fun c => pyIsWordChar c || decide (c = '-'))
  if w.isEmpty then s
  else
    match r.drop w.length with
    | '@' :: rest => String.mk ((rest.dropWhile isSpaceCh).reverse)
    | _ => s

/-- `re.sub(r'\s*[\(\[][\w\-\s]+@[\w\-]+[\)\]]$', '', title)`: drop a
trailing bracketed `(group@site)` style tag. -/
def stripTrailingGroupTag (s : String) : String :=
  match s.data.reverse with
  | c :: r1 =>
    if decide (c = ')') || decide (c = ']') then
      let w1 := r1.takeWhile (fun d => pyIsWordChar d || decide (d = '-'))
      if w1.isEmpty then s
      else
        match r1.drop w1.length with
        | '@' :: r2 =>
          let w2 := r2.takeWhile (fun d => pyIsWordChar d || decide (d = '-') || isSpaceCh d)
          if w2.isEmpty then s
          else
            match r2.drop w2.length with
            | b :: r3 =>
              if decide (b = '(') || decide (b = '[') then
                String.mk ((r3.dropWhile isSpaceCh).reverse)
              else s
            | [] => s
        | _ => s
    else s
  | [] => s

/-- Does `\s*(?:VCB-Studio|TSDM|Kamigami)` (case-insensitive) match at the
head of `l`? -/
def groupNameAt (l : List Char) : Bool :=
  let t := l.dropWhile isSpaceCh
  startsWithCI "vcb-studio".data t || startsWithCI "tsdm".data t ||
  startsWithCI "kamigami".data t

/-- `re.sub(r'\s*(?:VCB-Studio|TSDM|Kamigami).*$', '', title, re.IGNORECASE)`:
cut everything from the leftmost group-name occurrence (with the whitespace
in front of it) to the end. -/
def cutGroupTail : List Char → List Char
  | [] => []
  | c :: cs => if groupNameAt (c :: cs) then [] else c :: cutGroupTail cs

/-- `AnimeImportService._clean_extracted_title`: strip trailing junk
suffixes, a trailing `@uploader`, a trailing bracketed uploader tag and
trailing group names, then trim. -/
def clean_extracted_title (title : String) : String :=
  if title = "" then title
  else
    let t1 := junkSuffixes.foldl (fun t sfx =>
      if endsWithCh sfx.data t.data then
        pyStrip (String.mk (t.data.take (t.data.length - sfx.data.length)))
      else t) title
    let t2 := stripTrailingAt t1
    let t3 := stripTrailingGroupTag t2
    pyStrip (String.mk (cutGroupTail t3.data))

/-- Generic fuel-driven `re.sub`-style scanner: at each position, if
`matchAt` recognises a (non-empty) match it returns the remainder after the
match, which gets replaced by `repl`; otherwise the scan advances one
character.  `fuel = l.length` suffices because every matcher used here
consumes at least one character. -/
def scanSubFuel (matchAt : List Char → Option (List Char)) (repl : List Char) :
    Nat → List Char → List Char
  | 0, l => l
  | fuel + 1, l =>
    match l with
    | [] => []
    | c :: cs =>
      match matchAt (c :: cs) with
      | some rest => repl ++ scanSubFuel matchAt repl fuel rest
      | none => c :: scanSubFuel matchAt repl fuel cs

/-- Python `str.split(sep)` with a non-empty separator (exact substring
split, keeping empty pieces), fuel-driven. -/
def splitOnL (sep : List Char) : Nat → List Char → List Char → List (List Char)
  | 0, acc, l => [acc.reverse ++ l]
  | fuel + 1, acc, l =>
    match l with
    | [] => [acc.reverse]
    | c :: cs =>
      match (c :: cs).dropPrefix? sep with
      | some rest => acc.reverse :: splitOnL sep fuel [] rest
      | none => splitOnL sep fuel (c :: acc) cs

/-- Python `s.split(sep)`. -/
def pySplitOn (s sep : String) : List String :=
  (splitOnL sep.data s.data.length [] s.data).map String.mk

/-- Python `\b`: is there a word boundary between these two (optional)
neighbouring characters? -/
def wordBoundary (a b : Option Char) : Bool :=
  (match a with | some c => pyIsWordChar c | none => false) ≠
  (match b with | some c => pyIsWordChar c | none => false)

/-- Worker for `re.sub(r'\b' + re.escape(kw) + r'\b', '', s, re.IGNORECASE)`:
scan `s`, removing each occurrence of `kw` that is delimited by word
boundaries in the *original* string. -/
def removeKwWBGo (kw : List Char) : Nat → Option Char → List Char → List Char
  | 0, _, l => l
  | _ + 1, _, [] => []
  | fuel + 1, prev, c :: cs =>
    if startsWithCI kw (c :: cs) &&
        wordBoundary prev ((c :: cs)[0]?) &&
        wordBoundary ((c :: cs)[kw.length - 1]?) ((c :: cs)[kw.length]?) then
      removeKwWBGo kw fuel ((c :: cs)[kw.length - 1]?) ((c :: cs).drop kw.length)
    else
      c :: removeKwWBGo kw fuel (some c) cs

/-- `re.sub(r'\b kw \b', '', s, re.IGNORECASE)` (whole-word keyword
removal). -/
def removeKwWB (kw : String) (s : String) : String :=
  if kw.data.isEmpty then s
  else String.mk (removeKwWBGo kw.data s.data.length none s.data)

/-- `AnimeImportService._clean_non_bracketed_entry`: cut at the first
separator keeping the first non-technical piece, delete every technical
keyword as a whole word, collapse whitespace, and require more than two
characters. -/
def clean_non_bracketed_entry (entry : String) : String :=
  let e1 := [" - ", " – ", " — ", "  ", "\t"].foldl (fun e sep =>
    if containsSub sep.data e.data then
      match (pySplitOn e sep).find? (fun part =>
          !(looks_like_technical part) && decide (2 < part.data.length)) with
      | some p => p
      | none => e
    else e) entry
  let cleaned := TECHNICAL_KEYWORDS.foldl (fun c kw => removeKwWB kw c) e1
  let collapsed := pyCollapseWS cleaned
  if decide (2 < collapsed.data.length) then pyStrip collapsed else ""

/-- `re.findall(r'\[([^\]]+)\]', entry)`: all bracketed substrings, scanned
left to right, non-overlapping; an opening bracket with no non-empty
bracket-free content before the next `]` does not match and scanning
resumes one character later.  Fuel-driven; `fuel = l.length` suffices. -/
def findBracketsF : Nat → List Char → List String
  | 0, _ => []
  | fuel + 1, l =>
    match l with
    | [] => []
    | '[' :: rest =>
      let content := rest.takeWhile (fun c => decide (c ≠ ']'))
      match rest.dropWhile (fun c => decide (c ≠ ']')) with
      | ']' :: after =>
        if content.isEmpty then findBracketsF fuel rest
        else String.mk content :: findBracketsF fuel after
      | _ => findBracketsF fuel rest
    | _ :: cs => findBracketsF fuel cs

/-- All `[...]` groups of an entry. -/
def findBrackets (entry : String) : List String :=
  findBracketsF entry.data.length entry.data

/-- Stable insertion sort by descending string length
(`latin_brackets.sort(key=len, reverse=True)`). -/
def insertLenDesc (x : String) : List String → List String
  | [] => [x]
  | y :: ys =>
    if y.data.length < x.data.length then x :: y :: ys else y :: insertLenDesc x ys

def sortLenDesc (l : List String) : List String :=
  l.foldr insertLenDesc []

/-- `AnimeImportService.parse_titles_from_entry`: extract bracketed
segments, discard technical ones, classify the survivors by script
(kana → japanese, mostly-ASCII → latin, other CJK → chinese), use the
longest latin bracket (cleaned) as both english and romaji, the first
japanese bracket (cleaned) as japanese, the first chinese bracket
(uncleaned) as chinese; without brackets (or with only technical ones)
fall back to the cleaned whole entry when it is shorter than 100
characters. -/
def anime_parse_titles_from_entry (entry : String) : TitleSet :=
  let brackets := findBrackets entry
  if brackets.isEmpty then
    if entry.data.length < 100 then
      let cleaned := clean_non_bracketed_entry entry
      if cleaned ≠ "" then { english := cleaned, romaji := cleaned } else {}
    else {}
  else
    let non_technical := brackets.filter (fun b =>
      !(looks_like_technical b) && decide (1 < b.data.length))
    if non_technical.isEmpty then
      let cleaned := clean_non_bracketed_entry entry
      if cleaned ≠ "" then { english := cleaned, romaji := cleaned } else {}
    else
      let stripped := (non_technical.map pyStrip).filter (fun b => b ≠ "")
      let latin := stripped.filter (fun b =>
        !(contains_japanese b) && is_latin_text b)
      let japanese := stripped.filter contains_japanese
      let chinese := stripped.filter (fun b =>
        !(contains_japanese b) && !(is_latin_text b) && contains_cjk b)
      let t1 : TitleSet :=
        match sortLenDesc latin with
        | best :: _ =>
          let cleaned := clean_extracted_title best
          if cleaned ≠ "" then { english := cleaned, romaji := cleaned } else {}
        | [] => {}
      let t2 : TitleSet :=
        match japanese with
        | j :: _ =>
          let cleaned := clean_extracted_title j
          if cleaned ≠ "" then { t1 with japanese := cleaned } else t1
        | [] => t1
      match chinese with
      | c :: _ => { t2 with chinese := c }
      | [] => t2

/-! ## Claim C2: the Frieren example entry -/

/-- The raw entry of the spec's anime-parsing example. -/
def frierenEntry : String :=
  "[合集][葬送的芙莉莲] Frieren: Beyond Journey\x27s End [1080p][BDRip]"

/-- C2 counterexample: the claimed english/romaji value
`"Frieren: Beyond Journey's End"` is not produced — that text sits outside
all brackets and the parser only classifies bracketed segments, so english
and romaji come out empty. -/
theorem frieren_parse_counterexample :
    ¬ ((anime_parse_titles_from_entry frierenEntry).english =
        "Frieren: Beyond Journey\x27s End" ∧
      (anime_parse_titles_from_entry frierenEntry).romaji =
        "Frieren: Beyond Journey\x27s End" ∧
      (anime_parse_titles_from_entry frierenEntry).japanese = "" ∧
      (anime_parse_titles_from_entry frierenEntry).chinese = "葬送的芙莉莲") := by
  intro h
  have he : (anime_parse_titles_from_entry frierenEntry).english = "" := by decide
  rw [he] at h
  exact absurd h.1 (by decide)

/-- C2 (corrected): parsing the example entry discards the technical
brackets (`1080p`, `BDRip`) and the technical marker `合集`, classifies
`葬送的芙莉莲` as the Chinese title, leaves japanese empty, and — because the
Latin title is outside every bracket — leaves english and romaji empty. -/
theorem frieren_parse_amended :
    anime_parse_titles_from_entry frierenEntry =
      { english := "", romaji := "", japanese := "", chinese := "葬送的芙莉莲" } := by
  decide

/-! ## rapidfuzz `fuzz.ratio` and catalog match records

`rapidfuzz.fuzz.ratio(s1, s2)` is the normalised InDel similarity:
`100 * (len1 + len2 - dist) / (len1 + len2)` where `dist` is the
insertion/deletion edit distance, i.e. `len1 + len2 - 2 * lcs(s1, s2)`;
hence `ratio = 200 * lcs / (len1 + len2)`, and `100.0` for two empty
strings. -/

/-- Longest common subsequence length, fuel-driven (`fuel =
a.length + b.length` always suffices). -/
def lcsLenF : Nat → List Char → List Char → Nat
  | 0, _, _ => 0
  | _ + 1, [], _ => 0
  | _ + 1, _, [] => 0
  | fuel + 1, a :: as, b :: bs =>
    if a = b then lcsLenF fuel as bs + 1
    else max (lcsLenF fuel (a :: as) bs) (lcsLenF fuel as (b :: bs))

/-- Longest common subsequence length of two character lists. -/
def lcsLen (a b : List Char) : Nat :=
  lcsLenF (a.length + b.length) a b

/-- `rapidfuzz.fuzz.ratio` as an exact rational in `[0, 100]`. -/
def fuzzRatioOf (a b : String) : ℚ :=
  let n := a.data.length + b.data.length
  if n = 0 then 100
  else (200 * lcsLen a.data b.data : ℚ) / (n : ℚ)

/-- A catalog search hit, modelling the Python match dict.  `id` is the
external catalog id (`match.get('id')`), the title fields model
`match.get('title') / ('romaji_title') / ('native_title')`, `year` models
`match.get('year')`. -/
structure MatchDict where
  id : Option Nat := none
  title : Option String := none
  romaji_title : Option String := none
  native_title : Option String := none
  year : Option Nat := none
deriving DecidableEq, Repr

/-! ## Anime strict post-filter (`AnimeImportService._filter_strict_matches`) -/

/-- Decision for one lowered, stripped title variant inside
`_filter_strict_matches`: empty variants are skipped; for search titles of
at most two words the word counts must differ by at most one and the ratio
threshold is 85 (one word) or 80 (two words); otherwise the threshold
is 70. -/
def variantPasses (search_lower : String) (swc : Nat) (v : String) : Bool :=
  if v = "" then false
  else
    let vwc := (pySplit v).length
    if swc ≤ 2 then
      if decide (1 < ((vwc : Int) - (swc : Int)).natAbs) then false
      else if swc = 1 then decide (85 ≤ fuzzRatioOf search_lower v)
      else decide (80 ≤ fuzzRatioOf search_lower v)
    else decide (70 ≤ fuzzRatioOf search_lower v)

/-- The three lowered, stripped title variants of a match examined by the
strict filter. -/
def matchVariants (m : MatchDict) : List String :=
  [pyStrip (pyLower (m.title.getD "")),
   pyStrip (pyLower (m.romaji_title.getD "")),
   pyStrip (pyLower (m.native_title.getD ""))]

/-- `AnimeImportService._filter_strict_matches`. -/
def filter_strict_matches (search_title : String) (ms : List MatchDict) :
    List MatchDict :=
  if decide (search_title = "") || ms.isEmpty then ms
  else
    let search_lower := pyStrip (pyLower search_title)
    let swc := (pySplit search_lower).length
    ms.filter (fun m => (matchVariants m).any (variantPasses search_lower swc))

/-! ## Claim C8: the strict post-filter keeps exactly the close matches -/

/-- The claim's pass criterion for one (lowered, stripped, non-empty)
variant: single-word search titles need ratio ≥ 85 and word-count
difference ≤ 1; two-word titles need ratio ≥ 80 under the same word-count
constraint; three-or-more-word titles need ratio ≥ 70 with no word-count
constraint. -/
def strictPassSpec (search_lower : String) (swc : Nat) (v : String) : Prop :=
  if swc = 1 then
    (((pySplit v).length : Int) - (swc : Int)).natAbs ≤ 1 ∧
      85 ≤ fuzzRatioOf search_lower v
  else if swc = 2 then
    (((pySplit v).length : Int) - (swc : Int)).natAbs ≤ 1 ∧
      80 ≤ fuzzRatioOf search_lower v
  else 70 ≤ fuzzRatioOf search_lower v

theorem variantPasses_iff (sl : String) (swc : Nat) (v : String) (hswc : 1 ≤ swc) :
    variantPasses sl swc v = true ↔ v ≠ "" ∧ strictPassSpec sl swc v := by
  by_cases hv : v = ""
  · simp [variantPasses, hv]
  · rw [iff_comm]
    simp only [ne_eq, hv, not_false_eq_true, true_and]
    unfold variantPasses strictPassSpec
    rw [if_neg hv]
    rcases swc with _ | _ | _ | n
    · omega
    · rw [if_pos (by omega : (1 : Nat) ≤ 2), if_pos rfl]
      constructor
      · rintro ⟨hd, hr⟩
        rw [if_neg (by simp only [decide_eq_true_eq]; omega : ¬(decide
            (1 < (((pySplit v).length : Int) - ((1 : Nat) : Int)).natAbs) = true)),
          if_pos rfl, decide_eq_true_eq]
        exact hr
      · intro h
        split at h
        · cases h
        · rename_i hd
          simp only [decide_eq_true_eq, Nat.not_lt] at hd
          rw [if_pos rfl, decide_eq_true_eq] at h
          exact ⟨by omega, h⟩
    · rw [if_pos (by omega : (2 : Nat) ≤ 2), if_neg (by omega : ¬(2 : Nat) = 1),
        if_pos rfl]
      constructor
      · rintro ⟨hd, hr⟩
        rw [if_neg (by simp only [decide_eq_true_eq]; omega : ¬(decide
            (1 < (((pySplit v).length : Int) - ((2 : Nat) : Int)).natAbs) = true)),
          if_neg (by omega : ¬(2 : Nat) = 1), decide_eq_true_eq]
        exact hr
      · intro h
        split at h
        · cases h
        · rename_i hd
          simp only [decide_eq_true_eq, Nat.not_lt] at hd
          rw [if_neg (by omega : ¬(2 : Nat) = 1), decide_eq_true_eq] at h
          exact ⟨by omega, h⟩
    · rw [if_neg (by omega : ¬ n + 1 + 1 + 1 ≤ 2), if_neg (by omega : ¬ n + 1 + 1 + 1 = 1),
        if_neg (by omega : ¬ n + 1 + 1 + 1 = 2), decide_eq_true_eq]

/-- C8 (confirmed): for every non-empty search title (with at least one
word) and candidate list, a candidate is kept by
`_filter_strict_matches` iff at least one of its three title variants is
non-empty and passes the word-count/ratio thresholds of the claim. -/
theorem filter_strict_keeps_iff (s : String) (ms : List MatchDict) (m : MatchDict)
    (hs : s ≠ "") (hw : pySplit (pyStrip (pyLower s)) ≠ []) :
    m ∈ filter_strict_matches s ms ↔
      m ∈ ms ∧ ∃ v ∈ matchVariants m, v ≠ "" ∧
        strictPassSpec (pyStrip (pyLower s))
          ((pySplit (pyStrip (pyLower s))).length) v := by
  have hswc : 1 ≤ (pySplit (pyStrip (pyLower s))).length := by
    rcases hl : pySplit (pyStrip (pyLower s)) with _ | ⟨w, ws⟩
    · exact absurd hl hw
    · simp
  unfold filter_strict_matches
  by_cases hms : ms.isEmpty
  · rw [List.isEmpty_iff.mp hms]
    simp
  · rw [if_neg (by simp [hs, hms])]
    rw [List.mem_filter]
    constructor
    · rintro ⟨hmem, hany⟩
      rw [List.any_eq_true] at hany
      obtain ⟨v, hv, hpass⟩ := hany
      exact ⟨hmem, v, hv, (variantPasses_iff _ _ v hswc).mp hpass⟩
    · rintro ⟨hmem, v, hv, hne, hspec⟩
      refine ⟨hmem, ?_⟩
      rw [List.any_eq_true]
      exact ⟨v, hv, (variantPasses_iff _ _ v hswc).mpr ⟨hne, hspec⟩⟩

/-- C8 witness: the filter instance of the spec's own example — search
title `"AIR"` against the candidate titled `"AIR"`. -/
theorem filter_strict_keeps_iff_witness :
    "AIR" ≠ "" ∧
    (({ id := some 1, title := some "AIR" } : MatchDict) ∈
        filter_strict_matches "AIR"
          [{ id := some 1, title := some "AIR" },
           { id := some 2, title := some "AIRS" },
           { id := some 3, title := some "Air Gear" }] ↔
      ({ id := some 1, title := some "AIR" } : MatchDict) ∈
          [({ id := some 1, title := some "AIR" } : MatchDict),
           { id := some 2, title := some "AIRS" },
           { id := some 3, title := some "Air Gear" }] ∧
        ∃ v ∈ matchVariants { id := some 1, title := some "AIR" }, v ≠ "" ∧
          strictPassSpec (pyStrip (pyLower "AIR"))
            ((pySplit (pyStrip (pyLower "AIR"))).length) v) :=
  ⟨by decide,
   filter_strict_keeps_iff "AIR"
     [{ id := some 1, title := some "AIR" },
      { id := some 2, title := some "AIRS" },
      { id := some 3, title := some "Air Gear" }]
     { id := some 1, title := some "AIR" } (by decide) (by decide)⟩

/-! ## Anime confidence scorer (`AnimeImportService.calculate_confidence`) -/

/-- `english_match`: the parsed english title is non-empty and equals
(case-insensitively) the candidate's `title` field. -/
def anime_english_match (t : TitleSet) (m : MatchDict) : Prop :=
  pyLower t.english ≠ "" ∧ pyLower t.english = pyLower (m.title.getD "")

/-- `romaji_match`: the parsed romaji title is non-empty and equals the
candidate's `romaji_title`. -/
def anime_romaji_match (t : TitleSet) (m : MatchDict) : Prop :=
  pyLower t.romaji ≠ "" ∧ pyLower t.romaji = pyLower (m.romaji_title.getD "")

/-- `japanese_match`: the parsed japanese title is non-empty and equals the
candidate's `native_title`. -/
def anime_japanese_match (t : TitleSet) (m : MatchDict) : Prop :=
  pyLower t.japanese ≠ "" ∧ pyLower t.japanese = pyLower (m.native_title.getD "")

instance (t : TitleSet) (m : MatchDict) : Decidable (anime_english_match t m) := by
  unfold anime_english_match; infer_instance

instance (t : TitleSet) (m : MatchDict) : Decidable (anime_romaji_match t m) := by
  unfold anime_romaji_match; infer_instance

instance (t : TitleSet) (m : MatchDict) : Decidable (anime_japanese_match t m) := by
  unfold anime_japanese_match; infer_instance

/-- One iteration of the partial-signal fallback loop: substring
containment in either direction contributes `0.7`; word-set Jaccard
overlap contributes `overlap * 0.8`; the running score takes the maximum. -/
def overlapStep (c : ℚ) (s m : String) : ℚ :=
  let c1 := if containsSub s.data m.data || containsSub m.data s.data
    then max c 0.7 else c
  let sw := (pySplit s).toFinset
  let mw := (pySplit m).toFinset
  if sw ≠ ∅ ∧ mw ≠ ∅ then
    max c1 (((sw ∩ mw).card : ℚ) / ((sw ∪ mw).card : ℚ) * 0.8)
  else c1

/-- The fallback double loop over all search-title/match-title pairs
(empty strings skipped), starting from confidence 0. -/
def animeFallbackScore (sVals mVals : List String) : ℚ :=
  sVals.foldl (fun c s =>
    if s = "" then c
    else mVals.foldl (fun c' m => if m = "" then c' else overlapStep c' s m) c) 0

/-- The confidence value reached after the exact-match tiers of
`AnimeImportService.calculate_confidence`: running maxima of
0.95 / 0.90 / 0.90 for the three exact matches, then the 1.0 bonus when
english and japanese both match and the 0.98 bonus when english-or-romaji
plus japanese match. -/
def animeTierScore (t : TitleSet) (m : MatchDict) : ℚ :=
  if anime_english_match t m ∧ anime_japanese_match t m then 1
  else if (anime_english_match t m ∨ anime_romaji_match t m) ∧
      anime_japanese_match t m then 0.98
  else
    let c1 : ℚ := if anime_english_match t m then max 0 0.95 else 0
    let c2 : ℚ := if anime_romaji_match t m then max c1 0.9 else c1
    if anime_japanese_match t m then max c2 0.9 else c2

/-- `AnimeImportService.calculate_confidence`, transcribed: exact-match
tiers, then the partial-signal fallback when no exact tier fired (the
running confidence is 0 exactly when no tier fired).  (The
`_matched_title_types` bookkeeping the Python stores back into the match
dict is presentation-only and is not modelled.) -/
def anime_calculate_confidence (t : TitleSet) (m : MatchDict) : ℚ :=
  if animeTierScore t m = 0 then
    animeFallbackScore
      [pyLower t.english, pyLower t.romaji, pyLower t.japanese]
      [pyLower (m.title.getD ""), pyLower (m.romaji_title.getD ""),
       pyLower (m.native_title.getD "")]
  else animeTierScore t m

/-! ## Claim C4: the 1.0 / 0.98 anime confidence tiers -/

/-- C4 (corrected): the 1.0 tier requires the *english* variant (not just
any English-family variant): english + japanese exact matches give 1.0;
romaji + japanese without english give 0.98. -/
theorem anime_confidence_tiers (t : TitleSet) (m : MatchDict) :
    (anime_english_match t m → anime_japanese_match t m →
      anime_calculate_confidence t m = 1) ∧
    (¬ anime_english_match t m → anime_romaji_match t m →
      anime_japanese_match t m → anime_calculate_confidence t m = 49/50) := by
  constructor
  · intro hE hJ
    have htier : animeTierScore t m = 1 := by
      unfold animeTierScore
      rw [if_pos ⟨hE, hJ⟩]
    rw [anime_calculate_confidence, htier, if_neg (by norm_num : ¬(1 : ℚ) = 0)]
  · intro hnE hR hJ
    have htier : animeTierScore t m = 0.98 := by
      unfold animeTierScore
      rw [if_neg (fun h => hnE h.1), if_pos ⟨Or.inr hR, hJ⟩]
    rw [anime_calculate_confidence, htier, if_neg (by norm_num : ¬(0.98 : ℚ) = 0)]
    norm_num

/-- C4 witness: a concrete english+japanese double exact match scores 1. -/
theorem anime_confidence_tiers_witness :
    anime_english_match { english := "aa", japanese := "yy" }
      { title := some "aa", native_title := some "yy" } ∧
    anime_calculate_confidence { english := "aa", japanese := "yy" }
      { title := some "aa", native_title := some "yy" } = 1 :=
  ⟨by decide,
   (anime_confidence_tiers { english := "aa", japanese := "yy" }
     { title := some "aa", native_title := some "yy" }).1 (by decide) (by decide)⟩

/-- C4 counterexample: romaji (an English-family variant) and japanese both
match exactly and are non-empty, yet the returned confidence is 0.98, not
the 1.0 the claim requires for "an English-family variant AND the Japanese
variant". -/
theorem anime_confidence_tiers_counterexample :
    anime_romaji_match { english := "aa", romaji := "xx", japanese := "yy" }
      { title := some "bb", romaji_title := some "xx", native_title := some "yy" } ∧
    anime_japanese_match { english := "aa", romaji := "xx", japanese := "yy" }
      { title := some "bb", romaji_title := some "xx", native_title := some "yy" } ∧
    anime_calculate_confidence { english := "aa", romaji := "xx", japanese := "yy" }
      { title := some "bb", romaji_title := some "xx", native_title := some "yy" } ≠ 1 := by
  refine ⟨by decide, by decide, ?_⟩
  have hval : anime_calculate_confidence
      { english := "aa", romaji := "xx", japanese := "yy" }
      { title := some "bb", romaji_title := some "xx", native_title := some "yy" } =
      0.98 := by
    have htier : animeTierScore
        { english := "aa", romaji := "xx", japanese := "yy" }
        { title := some "bb", romaji_title := some "xx", native_title := some "yy" } =
        0.98 := by
      unfold animeTierScore
      rw [if_neg (by decide : ¬(anime_english_match
            { english := "aa", romaji := "xx", japanese := "yy" }
            { title := some "bb", romaji_title := some "xx", native_title := some "yy" } ∧
          anime_japanese_match
            { english := "aa", romaji := "xx", japanese := "yy" }
            { title := some "bb", romaji_title := some "xx",
              native_title := some "yy" })),
        if_pos ⟨Or.inr (by decide), by decide⟩]
    rw [anime_calculate_confidence, htier, if_neg (by norm_num : ¬(0.98 : ℚ) = 0)]
  rw [hval]
  norm_num

/-! ## Movie/TV confidence scorers -/

/-- The year bonus of `MovieImportService.calculate_confidence` /
`TVImportService.calculate_confidence`: +0.2 for equal years, +0.1 for a
±1-year difference; both year values must be truthy (non-empty string,
non-zero int), and a non-numeric search year (a `ValueError` in
`int(search_year)`) yields no bonus. -/
def movieYearBonus (sy : String) (my : Option Nat) : ℚ :=
  match my with
  | some v =>
    if sy ≠ "" ∧ v ≠ 0 then
      match pyIntOfString sy with
      | some n =>
        if n = (v : Int) then 0.2
        else if (n - (v : Int)).natAbs ≤ 1 then 0.1
        else 0
      | none => 0
    else 0
  | none => 0

/-- `MovieImportService.calculate_confidence`: 0 if either lowered,
stripped title is empty, else `min 1 (ratio/100 + year bonus)`. -/
def movie_calculate_confidence (t : TitleSet) (m : MatchDict) : ℚ :=
  let st := pyStrip (pyLower t.title)
  let mt := pyStrip (pyLower (m.title.getD ""))
  if st = "" ∨ mt = "" then 0
  else min 1 (fuzzRatioOf st mt / 100 + movieYearBonus t.year m.year)

/-- `TVImportService.calculate_confidence` (same body as the movie scorer
in the source). -/
def tv_calculate_confidence (t : TitleSet) (m : MatchDict) : ℚ :=
  let st := pyStrip (pyLower t.title)
  let mt := pyStrip (pyLower (m.title.getD ""))
  if st = "" ∨ mt = "" then 0
  else min 1 (fuzzRatioOf st mt / 100 + movieYearBonus t.year m.year)

/-! ## Claim C6: every scorer stays within [0, 1] -/

theorem lcsLenF_le : ∀ (fuel : Nat) (a b : List Char),
    lcsLenF fuel a b ≤ a.length ∧ lcsLenF fuel a b ≤ b.length := by
  intro fuel
  induction fuel with
  | zero => intro a b; simp [lcsLenF]
  | succ n ih =>
    intro a b
    match a, b with
    | [], b => simp [lcsLenF]
    | a :: as, [] => simp [lcsLenF]
    | a :: as, b :: bs =>
      simp only [lcsLenF, List.length_cons]
      split
      · have h := ih as bs
        omega
      · have h1 := ih (a :: as) bs
        have h2 := ih as (b :: bs)
        simp only [List.length_cons] at h1 h2
        constructor
        · exact Nat.max_le.mpr ⟨h1.1, by omega⟩
        · exact Nat.max_le.mpr ⟨by omega, h2.2⟩

theorem fuzzRatioOf_nonneg (a b : String) : 0 ≤ fuzzRatioOf a b := by
  simp only [fuzzRatioOf]
  split
  · norm_num
  · positivity

theorem fuzzRatioOf_le_100 (a b : String) : fuzzRatioOf a b ≤ 100 := by
  simp only [fuzzRatioOf]
  split
  · norm_num
  · rename_i hn
    have hpos : (0 : ℚ) < ((a.data.length + b.data.length : Nat) : ℚ) := by
      exact_mod_cast Nat.pos_of_ne_zero hn
    rw [div_le_iff₀ hpos]
    have h1 := (lcsLenF_le (a.data.length + b.data.length) a.data b.data).1
    have h2 := (lcsLenF_le (a.data.length + b.data.length) a.data b.data).2
    have hle : 2 * lcsLen a.data b.data ≤ a.data.length + b.data.length := by
      unfold lcsLen
      omega
    have hcast : (2 * lcsLen a.data b.data : ℚ) ≤
        ((a.data.length + b.data.length : Nat) : ℚ) := by
      exact_mod_cast hle
    push_cast at hcast ⊢
    linarith

theorem movieYearBonus_nonneg (sy : String) (my : Option Nat) :
    0 ≤ movieYearBonus sy my := by
  unfold movieYearBonus
  rcases my with _ | v
  · norm_num
  · dsimp only
    split
    · rcases hpi : pyIntOfString sy with _ | n <;> dsimp only
      · norm_num
      · split
        · norm_num
        · split <;> norm_num
    · norm_num

theorem movie_confidence_bounds (t : TitleSet) (m : MatchDict) :
    0 ≤ movie_calculate_confidence t m ∧ movie_calculate_confidence t m ≤ 1 := by
  simp only [movie_calculate_confidence]
  split
  · norm_num
  · constructor
    · apply le_min
      · norm_num
      · have hr := fuzzRatioOf_nonneg (pyStrip (pyLower t.title))
          (pyStrip (pyLower (m.title.getD "")))
        have hb := movieYearBonus_nonneg t.year m.year
        positivity
    · exact min_le_left _ _

theorem tv_calc_eq_movie_calc (t : TitleSet) (m : MatchDict) :
    tv_calculate_confidence t m = movie_calculate_confidence t m := rfl

theorem foldl_inv {α : Type} (f : ℚ → α → ℚ) (P : ℚ → Prop)
    (hstep : ∀ c a, P c → P (f c a)) :
    ∀ (l : List α) (c : ℚ), P c → P (l.foldl f c) := by
  intro l
  induction l with
  | nil => intro c hc; simpa using hc
  | cons a as ih => intro c hc; exact ih _ (hstep c a hc)

theorem overlapStep_bounds (s m : String) (c : ℚ) (h0 : 0 ≤ c) (h1 : c ≤ 1) :
    0 ≤ overlapStep c s m ∧ overlapStep c s m ≤ 1 := by
  simp only [overlapStep]
  set c1 := if containsSub s.data m.data || containsSub m.data s.data
    then max c 0.7 else c with hc1def
  have hc1 : 0 ≤ c1 ∧ c1 ≤ 1 := by
    rw [hc1def]
    split
    · exact ⟨le_trans h0 (le_max_left _ _), max_le h1 (by norm_num)⟩
    · exact ⟨h0, h1⟩
  split
  · rename_i hne
    obtain ⟨hne1, hne2⟩ := hne
    have hcard : 0 < ((pySplit s).toFinset ∪ (pySplit m).toFinset).card := by
      rw [Finset.card_pos]
      obtain ⟨x, hx⟩ := Finset.nonempty_iff_ne_empty.mpr hne1
      exact ⟨x, Finset.mem_union_left _ hx⟩
    have hsub : ((pySplit s).toFinset ∩ (pySplit m).toFinset).card ≤
        ((pySplit s).toFinset ∪ (pySplit m).toFinset).card :=
      Finset.card_le_card Finset.inter_subset_union
    have hovl1 : (((pySplit s).toFinset ∩ (pySplit m).toFinset).card : ℚ) /
        (((pySplit s).toFinset ∪ (pySplit m).toFinset).card : ℚ) ≤ 1 := by
      rw [div_le_one (by exact_mod_cast hcard)]
      exact_mod_cast hsub
    constructor
    · exact le_trans hc1.1 (le_max_left _ _)
    · apply max_le hc1.2
      calc _ ≤ (1 : ℚ) * 0.8 := by
            apply mul_le_mul_of_nonneg_right hovl1 (by norm_num)
      _ ≤ 1 := by norm_num
  · exact hc1

theorem animeFallbackScore_bounds (sVals mVals : List String) :
    0 ≤ animeFallbackScore sVals mVals ∧ animeFallbackScore sVals mVals ≤ 1 := by
  unfold animeFallbackScore
  apply foldl_inv (P := fun c => 0 ≤ c ∧ c ≤ 1)
  · intro c s hc
    split
    · exact hc
    · apply foldl_inv (P := fun c => 0 ≤ c ∧ c ≤ 1)
      · intro c' m' hc'
        split
        · exact hc'
        · exact overlapStep_bounds s m' c' hc'.1 hc'.2
      · exact hc
  · norm_num

theorem animeTierScore_bounds (t : TitleSet) (m : MatchDict) :
    0 ≤ animeTierScore t m ∧ animeTierScore t m ≤ 1 := by
  unfold animeTierScore
  split
  · norm_num
  · split
    · norm_num
    · split
      · split
        · split <;> constructor <;>
            simp [le_max_iff, max_le_iff] <;> norm_num
        · split <;> constructor <;>
            simp [le_max_iff, max_le_iff] <;> norm_num
      · split
        · split <;> constructor <;>
            simp [le_max_iff, max_le_iff] <;> norm_num
        · split <;> constructor <;> norm_num

/-- C6 (confirmed): every media kind's confidence scorer returns a value
in [0, 1]. -/
theorem confidence_in_unit_range :
    (∀ (t : TitleSet) (m : MatchDict),
      0 ≤ anime_calculate_confidence t m ∧ anime_calculate_confidence t m ≤ 1) ∧
    (∀ (t : TitleSet) (m : MatchDict),
      0 ≤ movie_calculate_confidence t m ∧ movie_calculate_confidence t m ≤ 1) ∧
    (∀ (t : TitleSet) (m : MatchDict),
      0 ≤ tv_calculate_confidence t m ∧ tv_calculate_confidence t m ≤ 1) := by
  refine ⟨?_, movie_confidence_bounds, ?_⟩
  · intro t m
    unfold anime_calculate_confidence
    split
    · exact animeFallbackScore_bounds _ _
    · exact animeTierScore_bounds t m
  · intro t m
    rw [tv_calc_eq_movie_calc]
    exact movie_confidence_bounds t m

/-! ## Cache key normalisation (`BaseImportService._normalize_title_for_cache`) -/

/-- Python `a or b` on strings (first truthy value). -/
def pyOrStr (a b : String) : String :=
  if a ≠ "" then a else b

/-- `BaseImportService._normalize_title_for_cache`: pick the best available
variant (english, else romaji, else japanese, else chinese, else the
generic title, else `""`), lowercase it, replace every character that is
neither a word character nor whitespace (`re.sub(r'[^\w\s]', ' ', ·)`) by a
space, and collapse whitespace. -/
def normalize_title_for_cache (t : TitleSet) : String :=
  let key := pyOrStr t.english (pyOrStr t.romaji (pyOrStr t.japanese
    (pyOrStr t.chinese t.title)))
  pyCollapseWS (String.mk ((pyLower key).data.map (fun c =>
    if pyIsWordChar c || isSpaceCh c then c else ' ')))

/-- The claim's phrasing of the same key: the first non-empty variant in
priority order english > romaji > japanese > chinese > title, normalised
the same way. -/
def specCacheKey (t : TitleSet) : String :=
  let key := ([t.english, t.romaji, t.japanese, t.chinese, t.title].find?
    (fun v => v ≠ "")).getD ""
  pyCollapseWS (String.mk ((pyLower key).data.map (fun c =>
    if pyIsWordChar c || isSpaceCh c then c else ' ')))

/-! ## Search-only title cleaning (`AnimeImportService._clean_title_for_search`) -/

/-- Matcher for `\(\d{4}\)` (strategy-4 cleaning). -/
def mParenYear4 : List Char → Option (List Char)
  | '(' :: d1 :: d2 :: d3 :: d4 :: ')' :: rest =>
    if isDigitCh d1 && isDigitCh d2 && isDigitCh d3 && isDigitCh d4 then some rest
    else none
  | _ => none

/-- Drop a case-insensitive literal prefix. -/
def dropPrefixCI : List Char → List Char → Option (List Char)
  | [], l => some l
  | _ :: _, [] => none
  | p :: ps, c :: cs =>
    if decide (pyLowerChar c = pyLowerChar p) then dropPrefixCI ps cs else none

/-- Matcher for `(?i)\s*season\s*\d+`: whitespace, "season", whitespace, at
least one digit (greedily consumed). -/
def mSeasonNum (l : List Char) : Option (List Char) :=
  match dropPrefixCI "season".data (l.dropWhile isSpaceCh) with
  | none => none
  | some rest =>
    let rest2 := rest.dropWhile isSpaceCh
    if optDigit rest2[0]? then some (rest2.dropWhile isDigitCh) else none

/-- Matcher for `(?i)\s*s\d+`. -/
def mSNum (l : List Char) : Option (List Char) :=
  match l.dropWhile isSpaceCh with
  | c :: rest =>
    if decide (pyLowerChar c = 's') && optDigit rest[0]? then
      some (rest.dropWhile isDigitCh)
    else none
  | [] => none

/-- Matcher for `(?i)\s*part\s*\d+`. -/
def mPartNum (l : List Char) : Option (List Char) :=
  match dropPrefixCI "part".data (l.dropWhile isSpaceCh) with
  | none => none
  | some rest =>
    let rest2 := rest.dropWhile isSpaceCh
    if optDigit rest2[0]? then some (rest2.dropWhile isDigitCh) else none

/-- `AnimeImportService._clean_title_for_search`: drop `(dddd)` groups,
season/part markers, then all punctuation, and collapse whitespace. -/
def clean_title_for_search (title : String) : String :=
  let l1 := scanSubFuel mParenYear4 [] title.data.length title.data
  let l2 := scanSubFuel mSeasonNum [] l1.length l1
  let l3 := scanSubFuel mSNum [] l2.length l2
  let l4 := scanSubFuel mPartNum [] l3.length l3
  let l5 := l4.map (fun c => if pyIsWordChar c || isSpaceCh c then c else ' ')
  pyStrip (pyCollapseWS (String.mk l5))

/-! ## Catalog search strategies (`search_media`)

The remote clients and the offline matcher are oracles; `_rate_limit_wait`
is pure timing and has no observable effect here, but every remote call a
strategy performs is recorded in the returned call log.  The
`[dict(m) for m in cached]` defensive copies are identity on immutable
values.  The `try/except` around each TMDB call and around the offline
tier catches client exceptions; clients are modelled as total functions,
so those handlers have no observable branch. -/

/-- One remote catalog call. -/
inductive RemoteCall where
  | searchAnime (query : String) (year : Option Nat)
  | animeRelations (id : Nat)
  | searchMovie (query : String) (year : Option Nat)
  | searchTV (query : String) (year : Option Nat)
deriving DecidableEq, Repr

/-- The AniList client contract used by the anime strategy. -/
structure AnilistClient where
  search_anime : String → Option Nat → List MatchDict
  get_anime_with_relations : Nat → List MatchDict

/-- The TMDB client contract used by the movie/TV strategies. -/
structure TmdbClient where
  search_movie : String → Option Nat → List MatchDict
  search_tv : String → Option Nat → List MatchDict

/-- One entry of the offline reference database
(`anime_data.get('title', '')` is the only field the strategy reads). -/
structure OfflineAnimeData where
  title : String := ""

/-- The offline matcher contract: `loaded`, and `match_titles` returning
`(anilist_id, confidence, anime_data, title_type)` tuples. -/
structure OfflineAnimeMatcher where
  loaded : Bool
  match_titles : TitleSet → Nat → List (Nat × ℚ × OfflineAnimeData × String)

/-- The per-run search cache (`self.search_cache`); insertion prepends, so
`List.lookup` sees the latest binding, matching dict overwrite. -/
abbrev SearchCache := List (String × List MatchDict)

def cacheInsert (cache : SearchCache) (key : String) (v : List MatchDict) :
    SearchCache :=
  (key, v) :: cache

/-- The `for match in matches: if match['id'] not in seen_ids: ...` dedup
loop, threading `(all_matches, seen_ids)`. -/
def dedupAdd (acc : List MatchDict × List (Option Nat)) (ms : List MatchDict) :
    List MatchDict × List (Option Nat) :=
  ms.foldl (fun acc m =>
    if acc.2.contains m.id then acc else (acc.1 ++ [m], acc.2 ++ [m.id])) acc

/-- Strategies 4 and 5 plus the final caching step of
`AnimeImportService.search_media`: cleaned-title search, then the Chinese
title as a last resort (only if it holds a Latin letter), then cache and
return. -/
def anime_search_s45 (client : AnilistClient) (cache : SearchCache)
    (titles : TitleSet) (cache_key : String)
    (acc : List MatchDict × List (Option Nat)) (calls : List RemoteCall) :
    List MatchDict × Bool × SearchCache × List RemoteCall :=
  let step4 :=
    if acc.1.isEmpty && decide (titles.english ≠ "") then
      let cleaned := clean_title_for_search titles.english
      if decide (cleaned ≠ "") && decide (cleaned ≠ titles.english) then
        (dedupAdd acc (client.search_anime cleaned none),
         calls ++ [RemoteCall.searchAnime cleaned none])
      else (acc, calls)
    else (acc, calls)
  let step5 :=
    if step4.1.1.isEmpty && decide (titles.chinese ≠ "") &&
        titles.chinese.data.any (fun c => decide (c.toNat < 128) && isAsciiAlpha c) then
      (dedupAdd step4.1 (client.search_anime titles.chinese none),
       step4.2 ++ [RemoteCall.searchAnime titles.chinese none])
    else step4
  if cache_key ≠ "" then
    (step5.1.1, false, cacheInsert cache cache_key step5.1.1, step5.2)
  else (step5.1.1, false, cache, step5.2)

/-- Strategy 3 of `AnimeImportService.search_media`: the Japanese title
(no year), stopping when three candidates were collected. -/
def anime_search_s3 (client : AnilistClient) (cache : SearchCache)
    (titles : TitleSet) (cache_key : String)
    (acc : List MatchDict × List (Option Nat)) (calls : List RemoteCall) :
    List MatchDict × Bool × SearchCache × List RemoteCall :=
  if acc.1.isEmpty && decide (titles.japanese ≠ "") then
    let acc1 := dedupAdd acc (client.search_anime titles.japanese none)
    let calls1 := calls ++ [RemoteCall.searchAnime titles.japanese none]
    if 3 ≤ acc1.1.length then
      (acc1.1, false, cacheInsert cache cache_key acc1.1, calls1)
    else anime_search_s45 client cache titles cache_key acc1 calls1
  else anime_search_s45 client cache titles cache_key acc calls

/-- Strategy 2 of `AnimeImportService.search_media`: the romaji title when
it differs from the english one. -/
def anime_search_s2 (client : AnilistClient) (cache : SearchCache)
    (titles : TitleSet) (cache_key : String)
    (acc : List MatchDict × List (Option Nat)) (calls : List RemoteCall) :
    List MatchDict × Bool × SearchCache × List RemoteCall :=
  if acc.1.isEmpty && decide (titles.romaji ≠ "") &&
      decide (titles.romaji ≠ titles.english) then
    let year := extract_year titles.romaji
    let acc1 := dedupAdd acc (client.search_anime titles.romaji year)
    let calls1 := calls ++ [RemoteCall.searchAnime titles.romaji year]
    if 3 ≤ acc1.1.length then
      (acc1.1, false, cacheInsert cache cache_key acc1.1, calls1)
    else anime_search_s3 client cache titles cache_key acc1 calls1
  else anime_search_s3 client cache titles cache_key acc calls

/-- Strategy 1 of `AnimeImportService.search_media`: search by the english
title (with any embedded year), strict-filter, and on success union in the
top hit's relation graph, cache and return. -/
def anime_search_s1 (client : AnilistClient) (cache : SearchCache)
    (titles : TitleSet) (cache_key : String)
    (acc : List MatchDict × List (Option Nat)) (calls : List RemoteCall) :
    List MatchDict × Bool × SearchCache × List RemoteCall :=
  if titles.english ≠ "" then
    let year := extract_year titles.english
    let ms := filter_strict_matches titles.english
      (client.search_anime titles.english year)
    let acc1 := dedupAdd acc ms
    let calls1 := calls ++ [RemoteCall.searchAnime titles.english year]
    match acc1.1 with
    | best :: _ =>
      (match best.id with
       | some bid =>
         if bid ≠ 0 then
           let acc2 := dedupAdd acc1 (client.get_anime_with_relations bid)
           let calls2 := calls1 ++ [RemoteCall.animeRelations bid]
           (acc2.1, false, cacheInsert cache cache_key acc2.1, calls2)
         else (acc1.1, false, cacheInsert cache cache_key acc1.1, calls1)
       | none => (acc1.1, false, cacheInsert cache cache_key acc1.1, calls1))
    | [] => anime_search_s2 client cache titles cache_key acc1 calls1
  else anime_search_s2 client cache titles cache_key acc calls

/-- Strategy 0 of `AnimeImportService.search_media`: the offline matcher as
a spell checker; on a confident offline hit, one strict-filtered remote
search with the canonical title, then the top hit's relation graph; if that
produced anything, cache and return, else fall through to the online
strategies. -/
def anime_search_uncached (client : AnilistClient)
    (offline : Option OfflineAnimeMatcher) (cache : SearchCache)
    (titles : TitleSet) (cache_key : String) :
    List MatchDict × Bool × SearchCache × List RemoteCall :=
  match offline with
  | some om =>
    if om.loaded then
      match om.match_titles titles 85 with
      | (_, conf, adata, _) :: _ =>
        let cleaned := adata.title
        if decide (cleaned ≠ "") && decide ((0.85 : ℚ) ≤ conf) then
          let year := extract_year cleaned
          let ms := filter_strict_matches cleaned (client.search_anime cleaned year)
          let calls1 := [RemoteCall.searchAnime cleaned year]
          match ms with
          | best :: _ =>
            (match best.id with
             | some bid =>
               if bid ≠ 0 then
                 let acc := dedupAdd ([], []) (client.get_anime_with_relations bid)
                 let calls2 := calls1 ++ [RemoteCall.animeRelations bid]
                 if acc.1.isEmpty then
                   anime_search_s1 client cache titles cache_key acc calls2
                 else (acc.1, false, cacheInsert cache cache_key acc.1, calls2)
               else anime_search_s1 client cache titles cache_key ([], []) calls1
             | none => anime_search_s1 client cache titles cache_key ([], []) calls1)
          | [] => anime_search_s1 client cache titles cache_key ([], []) calls1
        else anime_search_s1 client cache titles cache_key ([], []) []
      | [] => anime_search_s1 client cache titles cache_key ([], []) []
    else anime_search_s1 client cache titles cache_key ([], []) []
  | none => anime_search_s1 client cache titles cache_key ([], []) []

/-- `AnimeImportService.search_media`: the cache check, then the tiered
strategies.  Returns `(matches, was_cached, cache afterwards, remote call
log)`. -/
def anime_search_media (client : AnilistClient)
    (offline : Option OfflineAnimeMatcher) (cache : SearchCache)
    (titles : TitleSet) :
    List MatchDict × Bool × SearchCache × List RemoteCall :=
  let cache_key := normalize_title_for_cache titles
  if cache_key ≠ "" then
    match cache.lookup cache_key with
    | some cached => (cached, true, cache, [])
    | none => anime_search_uncached client offline cache titles cache_key
  else anime_search_uncached client offline cache titles cache_key

/-- `MovieImportService.search_media`: cache check, single remote call,
cache the result. -/
def movie_search_media (client : TmdbClient) (cache : SearchCache)
    (titles : TitleSet) :
    List MatchDict × Bool × SearchCache × List RemoteCall :=
  let cache_key := normalize_title_for_cache titles
  let uncached :=
    let year := if decide (titles.year ≠ "") && pyIsDigitStr titles.year then
      some (digitsVal titles.year.data) else none
    if titles.title = "" then ([], false, cache, [])
    else
      let ms := client.search_movie titles.title year
      let cache1 := if cache_key ≠ "" then cacheInsert cache cache_key ms else cache
      (ms, false, cache1, [RemoteCall.searchMovie titles.title year])
  if cache_key ≠ "" then
    match cache.lookup cache_key with
    | some cached => (cached, true, cache, [])
    | none => uncached
  else uncached

/-- `TVImportService.search_media` (same shape, `search_tv` call). -/
def tv_search_media (client : TmdbClient) (cache : SearchCache)
    (titles : TitleSet) :
    List MatchDict × Bool × SearchCache × List RemoteCall :=
  let cache_key := normalize_title_for_cache titles
  let uncached :=
    let year := if decide (titles.year ≠ "") && pyIsDigitStr titles.year then
      some (digitsVal titles.year.data) else none
    if titles.title = "" then ([], false, cache, [])
    else
      let ms := client.search_tv titles.title year
      let cache1 := if cache_key ≠ "" then cacheInsert cache cache_key ms else cache
      (ms, false, cache1, [RemoteCall.searchTV titles.title year])
  if cache_key ≠ "" then
    match cache.lookup cache_key with
    | some cached => (cached, true, cache, [])
    | none => uncached
  else uncached

/-! ## Claim C5: cache hits perform no remote call -/

theorem cache_key_spec (t : TitleSet) :
    normalize_title_for_cache t = specCacheKey t := by
  have hkey : pyOrStr t.english (pyOrStr t.romaji (pyOrStr t.japanese
      (pyOrStr t.chinese t.title))) =
      (([t.english, t.romaji, t.japanese, t.chinese, t.title].find?
        (fun v => v ≠ "")).getD "") := by
    unfold pyOrStr
    by_cases h1 : t.english = "" <;> by_cases h2 : t.romaji = "" <;>
      by_cases h3 : t.japanese = "" <;> by_cases h4 : t.chinese = "" <;>
      by_cases h5 : t.title = "" <;>
      simp [List.find?, h1, h2, h3, h4, h5]
  unfold normalize_title_for_cache specCacheKey
  rw [hkey]

/-- C5 (confirmed): whenever the normalised cache key of a title set is
non-empty and bound in the session cache, the search operation of each
strategy performs no remote call and returns the cached candidate list
(its defensive copy — identity on these immutable values) with
`was_cached = true`, leaving the cache unchanged; and the cache key is the
priority-selected variant english > romaji > japanese > chinese > title,
lowercased, punctuation replaced by spaces, whitespace collapsed. -/
theorem search_cache_hit (client : AnilistClient)
    (offline : Option OfflineAnimeMatcher) (tmdb : TmdbClient)
    (cache : SearchCache) (t : TitleSet) (l : List MatchDict)
    (hk : normalize_title_for_cache t ≠ "")
    (hc : cache.lookup (normalize_title_for_cache t) = some l) :
    anime_search_media client offline cache t = (l, true, cache, []) ∧
    movie_search_media tmdb cache t = (l, true, cache, []) ∧
    tv_search_media tmdb cache t = (l, true, cache, []) ∧
    (∀ t2 : TitleSet, normalize_title_for_cache t2 = specCacheKey t2) := by
  refine ⟨?_, ?_, ?_, cache_key_spec⟩
  · simp only [anime_search_media]
    rw [if_pos hk, hc]
  · simp only [movie_search_media]
    rw [if_pos hk, hc]
  · simp only [tv_search_media]
    rw [if_pos hk, hc]

/-- C5 witness: a concrete one-entry cache is hit without any remote
call. -/
theorem search_cache_hit_witness :
    normalize_title_for_cache { english := "foo" } ≠ "" ∧
    (anime_search_media
        { search_anime := fun _ _ => [], get_anime_with_relations := fun _ => [] }
        none [("foo", [{ id := some 7 }])] { english := "foo" } =
      ([{ id := some 7 }], true, [("foo", [{ id := some 7 }])], []) ∧
    movie_search_media
        { search_movie := fun _ _ => [], search_tv := fun _ _ => [] }
        [("foo", [{ id := some 7 }])] { english := "foo" } =
      ([{ id := some 7 }], true, [("foo", [{ id := some 7 }])], []) ∧
    tv_search_media
        { search_movie := fun _ _ => [], search_tv := fun _ _ => [] }
        [("foo", [{ id := some 7 }])] { english := "foo" } =
      ([{ id := some 7 }], true, [("foo", [{ id := some 7 }])], []) ∧
    (∀ t2 : TitleSet, normalize_title_for_cache t2 = specCacheKey t2)) :=
  ⟨by decide,
   search_cache_hit
     { search_anime := fun _ _ => [], get_anime_with_relations := fun _ => [] }
     none
     { search_movie := fun _ _ => [], search_tv := fun _ _ => [] }
     [("foo", [{ id := some 7 }])] { english := "foo" } [{ id := some 7 }]
     (by decide) (by decide)⟩

/-! ## The persistent store and the duplicate checker -/

/-- A persisted media record (`database.models.MediaItem` /
the `media_items` row).  `title`, `media_type` and `status` are NOT NULL;
everything else is nullable. -/
structure MediaItem where
  title : String
  native_title : Option String := none
  romaji_title : Option String := none
  year : Option Nat := none
  media_type : String
  status : String
  quality_type : Option String := none
  source : Option String := none
  notes : Option String := none
  tmdb_id : Option Nat := none
  anilist_id : Option Nat := none
  poster_url : Option String := none
deriving DecidableEq, Repr

/-- Byte-order comparison of strings (SQLite BINARY collation on UTF-8
agrees with codepoint order). -/
def strLtB : List Char → List Char → Bool
  | [], [] => false
  | [], _ :: _ => true
  | _ :: _, [] => false
  | a :: as, b :: bs =>
    if decide (a.toNat < b.toNat) then true
    else if decide (a = b) then strLtB as bs
    else false

/-- Stable insertion sort by title (`ORDER BY title`). -/
def insertByTitle (x : MediaItem) : List MediaItem → List MediaItem
  | [] => [x]
  | y :: ys =>
    if strLtB y.title.data x.title.data then y :: insertByTitle x ys
    else x :: y :: ys

def sortByTitle (l : List MediaItem) : List MediaItem :=
  l.foldr insertByTitle []

/-- `DatabaseManager.get_items(media_type=mt)`: all rows of that media
kind, ordered by title. -/
def get_items (db : List MediaItem) (mt : String) : List MediaItem :=
  sortByTitle (db.filter (fun r => decide (r.media_type = mt)))

/-- `BaseImportService.mark_as_added`: record external ids accepted during
this run (`self.added_in_session.update(media_ids)`; the session set is
modelled as a list with membership semantics). -/
def mark_as_added (session : List Nat) (media_ids : List Nat) : List Nat :=
  session ++ media_ids

/-- The loop over stored items inside `BaseImportService.check_duplicate`:
first the external-id field comparison (`if item_id and item_id ==
media_id`), then the title+year comparison; the first hit returns with the
stored record's description. -/
def dup_scan (items : List MediaItem) (media_id : Option Nat)
    (title : Option String) (year : Option Nat) : Bool × Option String :=
  match items with
  | [] => (false, none)
  | item :: rest =>
    if pyTruthyNat item.anilist_id && decide (item.anilist_id = media_id) then
      (true, some (item.title ++ " (" ++ fmtOptNat item.year ++ ")"))
    else if decide (some item.title = title) && decide (item.year = year) then
      (true, some (item.title ++ " (" ++ fmtOptNat item.year ++ ")"))
    else dup_scan rest media_id title year

/-- `BaseImportService.check_duplicate` for the anime service
(`get_match_id` reads `match.get('id')`, the id field is `anilist_id`, the
media kind is `"Anime"`): session check first, then the stored-record
scan. -/
def anime_check_duplicate (session : List Nat) (db : List MediaItem)
    (m : MatchDict) : Bool × Option String :=
  let media_id := m.id
  match media_id with
  | some v =>
    if v ≠ 0 ∧ v ∈ session then
      (true, some (fmtOptStr m.title ++ " (" ++ fmtOptNat m.year ++
        ") [added in this import]"))
    else dup_scan (get_items db "Anime") media_id m.title m.year
  | none => dup_scan (get_items db "Anime") media_id m.title m.year

/-! ## Claim C7: the session duplicate guard -/

/-- C7 (corrected): a candidate whose external id is present, *non-zero*
and recorded via `mark_as_added` in this run is reported as a duplicate
with an "[added in this import]" description; the checker is a pure read
of the session set and the store and performs no insertion. -/
theorem session_duplicate_guard (s0 ids : List Nat) (db : List MediaItem)
    (m : MatchDict) (v : Nat) (hid : m.id = some v) (hv : v ≠ 0)
    (hrec : v ∈ ids) :
    (anime_check_duplicate (mark_as_added s0 ids) db m).1 = true ∧
    ∃ d, (anime_check_duplicate (mark_as_added s0 ids) db m).2 = some d ∧
      ∃ pre : String, d = pre ++ "[added in this import]" := by
  have hmem : v ∈ mark_as_added s0 ids := by
    unfold mark_as_added
    exact List.mem_append_right s0 hrec
  simp only [anime_check_duplicate, hid]
  rw [if_pos ⟨hv, hmem⟩]
  refine ⟨rfl, _, rfl, fmtOptStr m.title ++ " (" ++ fmtOptNat m.year ++ ") ", ?_⟩
  rw [show (") [added in this import]" : String) =
      ") " ++ "[added in this import]" from rfl,
    ← String.append_assoc]

/-- C7 witness: a concrete recorded id is flagged with the session
description. -/
theorem session_duplicate_guard_witness :
    ({ id := some 7, title := some "X" } : MatchDict).id = some 7 ∧
    (anime_check_duplicate (mark_as_added [] [7]) []
        { id := some 7, title := some "X" }).1 = true ∧
    ∃ d, (anime_check_duplicate (mark_as_added [] [7]) []
        { id := some 7, title := some "X" }).2 = some d ∧
      ∃ pre : String, d = pre ++ "[added in this import]" :=
  ⟨rfl,
   session_duplicate_guard [] [7] [] { id := some 7, title := some "X" } 7
     rfl (by decide) (by decide)⟩

/-- C7 counterexample: external id 0 is falsy in Python
(`if media_id and media_id in self.added_in_session`), so a recorded id 0
is *not* reported as a session duplicate, contradicting the claim as
stated (which covers every id recorded via `mark_as_added`). -/
theorem session_duplicate_guard_counterexample :
    (0 : Nat) ∈ mark_as_added [] [0] ∧
    (anime_check_duplicate (mark_as_added [] [0]) []
        { id := some 0, title := some "X" }).1 = false := by
  constructor
  · decide
  · decide

/-! ## Claim C10: duplicate checking without an external id -/

theorem mem_insertByTitle (x y : MediaItem) (l : List MediaItem) :
    y ∈ insertByTitle x l ↔ y = x ∨ y ∈ l := by
  induction l with
  | nil => simp [insertByTitle]
  | cons z zs ih =>
    unfold insertByTitle
    split
    · simp only [List.mem_cons, ih]
      tauto
    · simp only [List.mem_cons]

theorem mem_sortByTitle (x : MediaItem) (l : List MediaItem) :
    x ∈ sortByTitle l ↔ x ∈ l := by
  unfold sortByTitle
  induction l with
  | nil => simp
  | cons z zs ih =>
    simp only [List.foldr_cons, List.mem_cons, mem_insertByTitle]
    rw [ih]

theorem dup_scan_no_id_iff (items : List MediaItem) (title : Option String)
    (year : Option Nat) :
    (dup_scan items none title year).1 = true ↔
      ∃ item ∈ items, some item.title = title ∧ item.year = year := by
  induction items with
  | nil => simp [dup_scan]
  | cons item rest ih =>
    unfold dup_scan
    have hidfalse : (pyTruthyNat item.anilist_id &&
        decide (item.anilist_id = (none : Option Nat))) = false := by
      rcases h : item.anilist_id with _ | w
      · simp [pyTruthyNat]
      · simp [pyTruthyNat]
    rw [hidfalse]
    simp only [Bool.false_eq_true, if_false]
    split
    · rename_i hty
      simp only [Bool.and_eq_true, decide_eq_true_eq] at hty
      simp only [true_iff]
      exact ⟨item, List.mem_cons_self item rest, hty.1, hty.2⟩
    · rename_i hty
      rw [ih]
      constructor
      · rintro ⟨it, hmem, h1, h2⟩
        exact ⟨it, List.mem_cons_of_mem _ hmem, h1, h2⟩
      · rintro ⟨it, hmem, h1, h2⟩
        rcases List.mem_cons.mp hmem with heq | hmem'
        · subst heq
          exact absurd (by simp [h1, h2]) hty
        · exact ⟨it, hmem', h1, h2⟩

/-- C10 (confirmed): for a candidate without an external id, the duplicate
checker never fires the session or external-id checks; it reports a
duplicate exactly when some stored record of the same media kind has the
candidate's title and year (Python `==` on the nullable year treats
`None == None` as equal). -/
theorem no_id_duplicate_iff (session : List Nat) (db : List MediaItem)
    (m : MatchDict) (hid : m.id = none) :
    (anime_check_duplicate session db m).1 = true ↔
      ∃ item ∈ db, item.media_type = "Anime" ∧
        some item.title = m.title ∧ item.year = m.year := by
  unfold anime_check_duplicate
  rw [hid]
  rw [dup_scan_no_id_iff]
  unfold get_items
  constructor
  · rintro ⟨item, hmem, h1, h2⟩
    rw [mem_sortByTitle, List.mem_filter] at hmem
    exact ⟨item, hmem.1, by simpa using hmem.2, h1, h2⟩
  · rintro ⟨item, hmem, hmt, h1, h2⟩
    refine ⟨item, ?_, h1, h2⟩
    rw [mem_sortByTitle, List.mem_filter]
    exact ⟨hmem, by simpa using hmt⟩

/-- The stored record of the C10 witness. -/
def c10Item : MediaItem :=
  { title := "A", year := some 2000, media_type := "Anime", status := "OnDrive" }

/-- The id-less candidate of the C10 witness. -/
def c10M : MatchDict :=
  { id := none, title := some "A", year := some 2000 }

/-- C10 witness: a stored record with equal title and year is detected for
an id-less candidate. -/
theorem no_id_duplicate_iff_witness :
    c10M.id = none ∧
    ((anime_check_duplicate [] [c10Item] c10M).1 = true ↔
      ∃ item ∈ [c10Item], item.media_type = "Anime" ∧
        some item.title = c10M.title ∧ item.year = c10M.year) :=
  ⟨rfl, no_id_duplicate_iff [] [c10Item] c10M rfl⟩

/-! ## Batch persistence (`DatabaseManager.add_items_batch`)

The SQLite transaction is modelled by threading the pending inserts
(`added`) separately from the committed store: the cursor sees
`db ++ added`, a commit appends `added`, a rollback discards it.  An
insert that raises is modelled by the oracle `fails`; the message carried
by the modelled exception is abstract. -/

/-- The `title=? AND year=? AND media_type=?` probe; a NULL year parameter
matches no row under SQL three-valued logic. -/
def titleYearProbe (db : List MediaItem) (item : MediaItem) : Bool :=
  db.any (fun r => decide (r.title = item.title) &&
    (match item.year with
     | some y => decide (r.year = some y)
     | none => false) &&
    decide (r.media_type = item.media_type))

/-- `DatabaseManager._check_duplicate_by_id_impl`: external-id probe
(AniList id for anime rows, else TMDB id, both only when truthy), then the
title+year+media-kind probe (SQL `year=?` with a NULL parameter matches no
row). -/
def check_duplicate_by_id (db : List MediaItem) (item : MediaItem) : Bool :=
  if decide (item.media_type = "Anime") && pyTruthyNat item.anilist_id then
    if db.any (fun r => decide (r.anilist_id = item.anilist_id) &&
        decide (r.media_type = item.media_type)) then true
    else titleYearProbe db item
  else if pyTruthyNat item.tmdb_id then
    if db.any (fun r => decide (r.tmdb_id = item.tmdb_id) &&
        decide (r.media_type = item.media_type)) then true
    else titleYearProbe db item
  else titleYearProbe db item

/-- The per-item loop of `add_items_batch`: duplicate check against the
transaction cursor (which sees the pending inserts), skip or raise on a
duplicate, then the insert, which raises when `fails` says so; any raise
aborts the loop. -/
def batchRun (db : List MediaItem) (fails : MediaItem → Bool) (skip : Bool)
    (added : List MediaItem) (skipped : List String) :
    List MediaItem → Except String (List MediaItem × List String)
  | [] => Except.ok (added, skipped)
  | item :: rest =>
    if check_duplicate_by_id (db ++ added) item then
      if skip then batchRun db fails skip added (skipped ++ [item.title]) rest
      else Except.error ("Duplicate item: " ++ item.title)
    else if fails item then Except.error ("insert failed: " ++ item.title)
    else batchRun db fails skip (added ++ [item]) skipped rest

/-- `DatabaseManager.add_items_batch`: empty input returns at once; else
one explicit transaction runs the loop; success commits the pending
inserts, any exception rolls the whole transaction back (the store is
unchanged) and re-raises.  Returns the store after the call and the
outcome (`ok (added, skipped-titles)` or the re-raised error). -/
def add_items_batch (db : List MediaItem) (items : List MediaItem)
    (skip : Bool) (fails : MediaItem → Bool) :
    List MediaItem × Except String (List MediaItem × List String) :=
  if items.isEmpty then (db, Except.ok ([], []))
  else
    match batchRun db fails skip [] [] items with
    | Except.ok (added, skipped) => (db ++ added, Except.ok (added, skipped))
    | Except.error e => (db, Except.error e)

/-! ## Claim C1: batch-transaction atomicity -/

theorem batchRun_cons (db : List MediaItem) (fails : MediaItem → Bool)
    (skip : Bool) (added : List MediaItem) (skipped : List String)
    (item : MediaItem) (rest : List MediaItem) :
    batchRun db fails skip added skipped (item :: rest) =
      if check_duplicate_by_id (db ++ added) item then
        if skip then batchRun db fails skip added (skipped ++ [item.title]) rest
        else Except.error ("Duplicate item: " ++ item.title)
      else if fails item then Except.error ("insert failed: " ++ item.title)
      else batchRun db fails skip (added ++ [item]) skipped rest := rfl

theorem batchRun_append (db : List MediaItem) (fails : MediaItem → Bool)
    (skip : Bool) (added : List MediaItem) (skipped : List String)
    (xs ys : List MediaItem) :
    batchRun db fails skip added skipped (xs ++ ys) =
      match batchRun db fails skip added skipped xs with
      | Except.ok (a, sk) => batchRun db fails skip a sk ys
      | Except.error e => Except.error e := by
  induction xs generalizing added skipped with
  | nil => simp [batchRun]
  | cons item rest ih =>
    rw [List.cons_append]
    simp only [batchRun_cons]
    split
    · split
      · exact ih _ _
      · rfl
    · split
      · rfl
      · exact ih _ _

/-- C1 (confirmed): if the batch reaches an item whose insert raises (it
processed a prefix without error and the item is not skipped as a
duplicate), the whole call raises, the store is exactly what it was before
the call, and — when none of the N items was already stored — the store
contains zero of the N items afterwards. -/
theorem batch_atomicity (db : List MediaItem) (items : List MediaItem)
    (skip : Bool) (fails : MediaItem → Bool)
    (hfresh : ∀ x ∈ items, x ∉ db)
    (pre post : List MediaItem) (x : MediaItem)
    (a : List MediaItem) (sk : List String)
    (hsplit : items = pre ++ x :: post)
    (hpre : batchRun db fails skip [] [] pre = Except.ok (a, sk))
    (hnotdup : check_duplicate_by_id (db ++ a) x = false)
    (hfail : fails x = true) :
    ∃ e, (add_items_batch db items skip fails).2 = Except.error e ∧
      (add_items_batch db items skip fails).1 = db ∧
      ∀ y ∈ items, y ∉ (add_items_batch db items skip fails).1 := by
  have hne : ¬ items.isEmpty := by
    rw [hsplit]
    cases pre <;> simp
  have hrun : batchRun db fails skip [] [] items =
      Except.error ("insert failed: " ++ x.title) := by
    rw [hsplit, batchRun_append, hpre]
    show batchRun db fails skip a sk (x :: post) = _
    rw [batchRun_cons, hnotdup, hfail]
    simp
  have hbatch : add_items_batch db items skip fails =
      (db, Except.error ("insert failed: " ++ x.title)) := by
    unfold add_items_batch
    rw [if_neg hne, hrun]
  refine ⟨"insert failed: " ++ x.title, by rw [hbatch], by rw [hbatch], ?_⟩
  intro y hy
  rw [hbatch]
  exact hfresh y hy

/-- The three batch-witness records; the middle insert raises. -/
def c1A : MediaItem :=
  { title := "A", media_type := "Anime", status := "OnDrive", anilist_id := some 1 }

def c1B : MediaItem :=
  { title := "B", media_type := "Anime", status := "OnDrive", anilist_id := some 2 }

def c1C : MediaItem :=
  { title := "C", media_type := "Anime", status := "OnDrive", anilist_id := some 3 }

def c1fails : MediaItem → Bool := fun it => decide (it.title = "B")

/-- C1 witness: with three fresh items whose second insert raises, the
batch raises and the (initially empty) store holds none of them. -/
theorem batch_atomicity_witness :
    ∃ e, (add_items_batch [] [c1A, c1B, c1C] true c1fails).2 = Except.error e ∧
      (add_items_batch [] [c1A, c1B, c1C] true c1fails).1 = [] ∧
      ∀ y ∈ [c1A, c1B, c1C],
        y ∉ (add_items_batch [] [c1A, c1B, c1C] true c1fails).1 :=
  batch_atomicity [] [c1A, c1B, c1C] true c1fails (by decide)
    [c1A] [c1C] c1B [c1A] [] rfl rfl (by decide) (by decide)

/-! ## The import driver (`BaseImportService.import_file`, anime instance)

Progress and result callbacks only mirror the returned list and are not
modelled separately; the spreadsheet readers are oracles returning either
the extracted entries or the message of the exception they raise. -/

/-- `pathlib.PurePath.suffix`: the extension of the final path component —
the part from the last dot, provided that dot is neither the first nor the
last character of the name. -/
def pySuffix (path : String) : String :=
  let name := ((path.data.reverse.takeWhile (fun c => decide (c ≠ '/')))).reverse
  let r := name.reverse
  let t := r.takeWhile (fun c => decide (c ≠ '.'))
  match r.drop t.length with
  | '.' :: beforeDot =>
    if t.isEmpty then ""
    else if beforeDot.isEmpty then ""
    else String.mk ('.' :: t.reverse)
  | _ => ""

/-- One per-entry outcome (`ImportResult`): the raw text, the parsed
titles, the scored matches kept (with their confidences; the Python
attribute is named `matches`, a reserved word here), a status string,
a message, and the top confidence. -/
structure ImportResult where
  original_text : String
  parsed_titles : TitleSet
  match_list : List (MatchDict × ℚ)
  status : String
  message : String
  confidence : ℚ := 0

/-- Stable insertion sort by descending confidence
(`matches.sort(key=..., reverse=True)`). -/
def insertConfDesc (x : MatchDict × ℚ) :
    List (MatchDict × ℚ) → List (MatchDict × ℚ)
  | [] => [x]
  | y :: ys => if y.2 < x.2 then x :: y :: ys else y :: insertConfDesc x ys

def sortConfDesc (l : List (MatchDict × ℚ)) : List (MatchDict × ℚ) :=
  l.foldr insertConfDesc []

/-- The per-entry body of the `import_file` loop for the anime service:
parse, search (through the cache), score, filter at the 0.35 minimum
confidence, sort, partition into duplicates and new matches, and build the
outcome.  Returns the outcome, the search cache afterwards and the remote
calls performed. -/
def anime_process_entry (client : AnilistClient)
    (offline : Option OfflineAnimeMatcher) (db : List MediaItem)
    (session : List Nat) (cache : SearchCache) (entry : String) :
    ImportResult × SearchCache × List RemoteCall :=
  let titles := anime_parse_titles_from_entry entry
  if !(titlesAnyTruthy titles) then
    ({ original_text := entry, parsed_titles := titles, match_list := [],
       status := "error",
       message := "Could not extract any titles from entry" }, cache, [])
  else
    let sr := anime_search_media client offline cache titles
    let ms := sr.1
    let was_cached := sr.2.1
    let cache1 := sr.2.2.1
    let calls := sr.2.2.2
    if ms.isEmpty then
      ({ original_text := entry, parsed_titles := titles, match_list := [],
         status := "no_match", message := "No matches found" }, cache1, calls)
    else
      let scored := ms.map (fun m => (m, anime_calculate_confidence titles m))
      let kept := scored.filter (fun p => decide ((0.35 : ℚ) ≤ p.2))
      if kept.isEmpty then
        ({ original_text := entry, parsed_titles := titles, match_list := [],
           status := "no_match",
           message := "No matches with sufficient confidence (min 35%)" },
         cache1, calls)
      else
        let sorted := sortConfDesc kept
        let dups := sorted.filter
          (fun p => (anime_check_duplicate session db p.1).1)
        let news := sorted.filter
          (fun p => !((anime_check_duplicate session db p.1).1))
        let cache_suffix := if was_cached then " [cached search]" else ""
        let st :=
          if !(dups.isEmpty) && news.isEmpty then "duplicate"
          else if !(dups.isEmpty) && !(news.isEmpty) then "partial_duplicate"
          else "success"
        let msg :=
          if !(dups.isEmpty) && news.isEmpty then
            "All " ++ toString dups.length ++
              " match(es) already in database" ++ cache_suffix
          else if !(dups.isEmpty) && !(news.isEmpty) then
            "Found " ++ toString news.length ++ " new match(es), " ++
              toString dups.length ++ " duplicate(s)" ++ cache_suffix
          else "Found " ++ toString news.length ++ " match(es)" ++ cache_suffix
        ({ original_text := entry, parsed_titles := titles, match_list := sorted,
           status := st, message := msg,
           confidence := (sorted.headD ({}, 0)).2 }, cache1, calls)

/-- `BaseImportService.import_file` for the anime service: clear the
session state, dispatch on the file extension, and on a file-level failure
return a single error outcome without touching any entry; otherwise fold
the per-entry body over the extracted entries.  Returns the outcomes, the
final `(search cache, accepted-id set)` session state and the remote call
log. -/
def anime_import_file (client : AnilistClient)
    (offline : Option OfflineAnimeMatcher) (db : List MediaItem)
    (ods_reader excel_reader : String → Except String (List String))
    (path : String) :
    List ImportResult × (SearchCache × List Nat) × List RemoteCall :=
  let ext := pyLower (pySuffix path)
  let entriesE :=
    if ext = ".ods" then ods_reader path
    else if ext = ".xlsx" ∨ ext = ".xls" then excel_reader path
    else Except.error ("Unsupported file format: " ++ ext)
  match entriesE with
  | Except.error e =>
    ([{ original_text := "", parsed_titles := {}, match_list := [],
        status := "error", message := "Failed to parse file: " ++ e }],
     ([], []), [])
  | Except.ok entries =>
    let out := entries.foldl (fun acc entry =>
      let step := anime_process_entry client offline db [] acc.2.1 entry
      (acc.1 ++ [step.1], step.2.1, acc.2.2 ++ step.2.2))
      (([] : List ImportResult), ([] : SearchCache), ([] : List RemoteCall))
    (out.1, (out.2.1, []), out.2.2)

/-! ## Claim C9: unsupported file extensions fail at file level -/

/-- C9 (confirmed): for a path whose lowercased extension is not `.ods`,
`.xlsx` or `.xls`, the import run emits exactly one error-status outcome
(and no per-entry outcome), processes no entries, performs no remote
calls, and stops. -/
theorem unsupported_extension_single_error (client : AnilistClient)
    (offline : Option OfflineAnimeMatcher) (db : List MediaItem)
    (ods_reader excel_reader : String → Except String (List String))
    (path : String)
    (hext : pyLower (pySuffix path) ∉ ([".ods", ".xlsx", ".xls"] : List String)) :
    anime_import_file client offline db ods_reader excel_reader path =
      ([{ original_text := "", parsed_titles := {}, match_list := [],
          status := "error",
          message := "Failed to parse file: " ++
            ("Unsupported file format: " ++ pyLower (pySuffix path)) }],
       ([], []), []) := by
  simp only [List.mem_cons, List.not_mem_nil, or_false, not_or] at hext
  obtain ⟨h1, h2, h3⟩ := hext
  simp only [anime_import_file]
  rw [if_neg h1, if_neg (by tauto : ¬(pyLower (pySuffix path) = ".xlsx" ∨
    pyLower (pySuffix path) = ".xls"))]

/-- C9 witness: importing `"collection.txt"` yields the single file-error
outcome and no remote calls. -/
theorem unsupported_extension_single_error_witness :
    pyLower (pySuffix "collection.txt") ∉ ([".ods", ".xlsx", ".xls"] : List String) ∧
    anime_import_file
        { search_anime := fun _ _ => [], get_anime_with_relations := fun _ => [] }
        none [] (fun _ => Except.ok []) (fun _ => Except.ok [])
        "collection.txt" =
      ([{ original_text := "", parsed_titles := {}, match_list := [],
          status := "error",
          message := "Failed to parse file: " ++
            ("Unsupported file format: " ++ pyLower (pySuffix "collection.txt")) }],
       ([], []), []) :=
  ⟨by decide,
   unsupported_extension_single_error
     { search_anime := fun _ _ => [], get_anime_with_relations := fun _ => [] }
     none [] (fun _ => Except.ok []) (fun _ => Except.ok [])
     "collection.txt" (by decide)⟩
